import Mathlib

/-!
# DtbLoader: device-tree resolution, growth, publication and exit-time arbitration

A shallow embedding of `EmbeddedPkg/Application/ConfigTableLoader/DtbLoader.c`.

* C pointers are natural-number addresses, `0` is `NULL`.
* Memory is a byte-addressed map `Nat → Nat`; every read is taken `% 256`.
* A function whose source can stop before it returns (a null pointer dereferenced where
  page 0 is not mapped, a failed `ASSERT`) returns an `Option`; `none` is such a stop, and
  nothing after it is executed.
* `EFI_STATUS` is a 64-bit `UINTN`; `EFI_ERROR` tests the top bit.
* Firmware services and helpers whose code is not part of `DtbLoader.c` are either
  fields of the record `Firmware` (their results are supplied by the platform) or
  definitions whose doc comment says what they are modelled from.
* Every service call that touches the outside world is appended to `State.log`.
-/

set_option maxRecDepth 100000

namespace DtbLoader

/-! ## Status codes -/

/-- Type `EFI_STATUS` is a `UINTN`, 64 bits wide on AArch64. -/
abbrev EFI_STATUS := Nat

/-- Modelled from the spec: the macro `EFI_ERROR` of the UEFI headers is not in `DtbLoader.c`;
a status is an error exactly when its top (63rd) bit is set. -/
def EFI_ERROR (Status : EFI_STATUS) : Bool := decide (2 ^ 63 ≤ Status % 2 ^ 64)

def EFI_SUCCESS : EFI_STATUS := 0
def EFI_LOAD_ERROR : EFI_STATUS := 2 ^ 63 + 1
def EFI_OUT_OF_RESOURCES : EFI_STATUS := 2 ^ 63 + 9
def EFI_NOT_FOUND : EFI_STATUS := 2 ^ 63 + 14

/-! ## Memory, blobs and checksums -/

/-- Byte-addressed memory. -/
abbrev Mem := Nat → Nat

/-- The `n` bytes found at addresses `p, p+1, …, p+n-1`. -/
def readBytes (mem : Mem) (p n : Nat) : List Nat :=
  (List.range n).map (fun i => mem (p + i) % 256)

/-- Store `bytes` at addresses `p, p+1, …`. -/
def writeBytes (mem : Mem) (p : Nat) (bytes : List Nat) : Mem :=
  fun a => if p ≤ a ∧ a < p + bytes.length then bytes.getD (a - p) 0 % 256 else mem a

/-- Modelled from the spec: the macro `fdt_totalsize` of `libfdt.h` is not in `DtbLoader.c`;
the blob is self-describing, its total size is the big-endian 32-bit header field at byte
offset 4 (right after the 4-byte magic). The result is a `uint32_t`. -/
def fdt_totalsize (mem : Mem) (fdt : Nat) : Nat :=
  (mem (fdt + 4) % 256) * 2 ^ 24 + (mem (fdt + 5) % 256) * 2 ^ 16
    + (mem (fdt + 6) % 256) * 2 ^ 8 + mem (fdt + 7) % 256

/-- One bit step of the reflected CRC-32 (polynomial `0xEDB88320`). -/
def crc32Bit (c : Nat) : Nat :=
  if c % 2 = 1 then (c / 2) ^^^ 0xEDB88320 else c / 2

/-- Fold one data byte into the running CRC. -/
def crc32Byte (c b : Nat) : Nat :=
  crc32Bit (crc32Bit (crc32Bit (crc32Bit (crc32Bit (crc32Bit (crc32Bit (crc32Bit
    (c ^^^ (b % 256)))))))))

/-- Modelled from the spec: the boot service `gBS->CalculateCrc32` is not in `DtbLoader.c`;
the fingerprint is the checksum of a byte range, here the standard CRC-32 (initial value
and final xor `0xFFFFFFFF`) of the `DataSize` bytes at `Data`. -/
def CalculateCrc32 (mem : Mem) (Data DataSize : Nat) : Nat :=
  ((readBytes mem Data DataSize).foldl crc32Byte 0xFFFFFFFF) ^^^ 0xFFFFFFFF

/-! ## The table directory -/

/-- Identities of the system configuration table that the program names, and any other. -/
inductive Guid where
  | gFdtTableGuid
  | gEfiAcpiTableGuid
  | gEfiAcpi20TableGuid
  | gEfiRtPropertiesTableGuid
  | other (n : Nat)
  deriving DecidableEq, Repr

/-- The system configuration table: at most one table pointer per identity. -/
abbrev TableDirectory := Guid → Option Nat

/-- Modelled from the spec: `EfiGetSystemConfigurationTable` (UefiLib) is not in
`DtbLoader.c`; `lookup(identity) -> bytesOrNull`, failing with `EFI_NOT_FOUND` when the
identity has no entry. -/
def EfiGetSystemConfigurationTable (dir : TableDirectory) (g : Guid) : EFI_STATUS × Nat :=
  match dir g with
  | some p => (EFI_SUCCESS, p)
  | none => (EFI_NOT_FOUND, 0)

/-- Modelled from the spec: the boot service `gBS->InstallConfigurationTable` is not in
`DtbLoader.c`; installing under an identity replaces the entry, installing a null value
removes it (`EFI_NOT_FOUND` when there is nothing to remove). `st` is the status the
firmware gives to an install of a non-null table; when it is an error the directory is
left alone. -/
def InstallConfigurationTable (st : EFI_STATUS) (dir : TableDirectory) (g : Guid)
    (Table : Nat) : EFI_STATUS × TableDirectory :=
  if Table = 0 then
    match dir g with
    | some _ => (EFI_SUCCESS, Function.update dir g none)
    | none => (EFI_NOT_FOUND, dir)
  else if EFI_ERROR st then (st, dir)
  else (st, Function.update dir g (some Table))

/-! ## Program state -/

/-- Hardware-identifier kinds of `CHID.h` that `DtbLoader.c` names. -/
inductive CHID where
  | CHID_3 | CHID_4 | CHID_5 | CHID_6 | CHID_7 | CHID_8 | CHID_9 | CHID_10 | CHID_11
  | CHID_13 | CHID_14
  deriving DecidableEq, Repr

/-- The two file names handed to `ReadFdt`: `\dtb\%g.dtb` for a GUID, and `\MY.dtb`. -/
inductive FdtPath where
  | dtb (g : Nat)
  | my
  deriving DecidableEq, Repr

/-- Calls that reach outside the program, in the order they are made. -/
inductive Call where
  | GetComputerHardwareId (k : CHID)
  | ReadFdt (p : FdtPath)
  | AllocatePool (n : Nat)
  | FreePool (p : Nat)
  | fdt_open_into (fdt buf : Nat) (bufsize : Int)
  | QcomDetectPanel (blob : Nat) (k : CHID)
  | CalculateCrc32 (data size : Nat)
  | InstallConfigurationTable (g : Guid) (table : Nat)
  | CreateEvent
  | RootClose
  | LoadNextStage
  deriving DecidableEq, Repr

/-- The static `mBlobInfo`. -/
structure BlobInfo where
  Crc32 : Nat
  TotalSize : Nat
  Data : Nat
  deriving DecidableEq, Repr

/-- Everything the program reads or writes. -/
structure State where
  mem : Mem
  pool : List Nat
  dir : TableDirectory
  mBlobInfo : BlobInfo
  hooked : Bool
  log : List Call

/-- Results supplied by the platform for the services the program calls. -/
structure Firmware where
  GetLoadedImageProtocol : EFI_STATUS
  GetLoadedImageFileSystem : EFI_STATUS
  ReadSmbiosInfo : EFI_STATUS
  OpenVolume : EFI_STATUS
  /-- status and derived GUID -/
  GetComputerHardwareId : CHID → EFI_STATUS × Nat
  /-- status, buffer address and file contents -/
  ReadFdt : FdtPath → EFI_STATUS × Nat × List Nat
  /-- address of the new buffer, `0` when the allocation fails -/
  AllocatePool : Nat → Nat
  /-- the work libfdt does for `fdt_open_into (fdt, buf, bufsize)`: error code (`0` is
  success) and memory afterwards -/
  expand : Mem → Nat → Nat → Int → Int × Mem
  QcomDetectPanel : Mem → Nat → CHID → Mem
  /-- status of installing a non-null table under an identity -/
  InstallStatus : Guid → Nat → EFI_STATUS
  CreateEvent : EFI_STATUS
  RootClose : EFI_STATUS
  GetSmbiosTable : Bool
  AllocateRuntimePool : Nat → Nat
  LoadNextStage : EFI_STATUS
  /-- whether page 0 is mapped, so that an access through a null pointer goes through -/
  NullPageMapped : Bool
  /-- whether this is a build in which a failed `ASSERT` stops the program -/
  AssertsEnabled : Bool

def FDT_ADDITIONAL_SIZE : Nat := 0x400

/-- Append a call to the log. -/
def State.note (s : State) (c : Call) : State := { s with log := s.log ++ [c] }

/-- Release a pool buffer. -/
def FreePool (s : State) (p : Nat) : State :=
  { s with pool := s.pool.filter (fun q => q ≠ p), log := s.log ++ [Call.FreePool p] }

/-! ## ResizeBlob, RegisterDtBlob, ExitBootServicesHook -/

/-- Big-endian bytes of a 32-bit value. -/
def be32 (n : Nat) : List Nat := [n / 2 ^ 24 % 256, n / 2 ^ 16 % 256, n / 2 ^ 8 % 256, n % 256]

/-- The value an `int` parameter receives from a `UINTN` argument: the low 32 bits read as
two's complement. -/
def toInt32 (n : Nat) : Int :=
  if n % 2 ^ 32 < 2 ^ 31 then ((n % 2 ^ 32 : Nat) : Int)
  else ((n % 2 ^ 32 : Nat) : Int) - 2 ^ 32

/-- Modelled from the spec: `fdt_open_into (fdt, buf, int bufsize)` of libfdt is not in
`DtbLoader.c`; it is a structure-preserving expand of the blob into the new buffer such that
the declared total size afterwards equals the new buffer size. The platform supplies the
error code and the memory after the copy (`Firmware.expand`); on success the size field of
the new blob is set to `bufsize`, stored as a 32-bit value. -/
def fdt_open_into (fw : Firmware) (mem : Mem) (fdt buf : Nat) (bufsize : Int) : Int × Mem :=
  let r := fw.expand mem fdt buf bufsize
  if r.1 ≠ 0 then r
  else (0, writeBytes r.2 (buf + 4) (be32 (bufsize % 2 ^ 32).toNat))

/-- Function `ResizeBlob`: the result is the status, the caller's `*Blob` afterwards, and the
state. `fdt_totalsize` is a `uint32_t` and `FDT_ADDITIONAL_SIZE` an `int`, so the sum is
formed in 32-bit unsigned arithmetic before it is widened to the `UINTN NewSize`; libfdt
takes the size as an `int`, so `NewSize` is converted again on the way in. -/
def ResizeBlob (fw : Firmware) (s : State) (Blob : Nat) : EFI_STATUS × Nat × State :=
  let NewSize := (fdt_totalsize s.mem Blob + FDT_ADDITIONAL_SIZE) % 2 ^ 32
  let NewBlob := fw.AllocatePool NewSize
  let s1 := s.note (Call.AllocatePool NewSize)
  if NewBlob = 0 then
    (EFI_OUT_OF_RESOURCES, Blob, s1)
  else
    let s2 := { s1 with pool := NewBlob :: s1.pool }
    let r := fdt_open_into fw s2.mem Blob NewBlob (toInt32 NewSize)
    let s3 := { s2 with mem := r.2,
                        log := s2.log ++ [Call.fdt_open_into Blob NewBlob (toInt32 NewSize)] }
    if r.1 ≠ 0 then
      (EFI_OUT_OF_RESOURCES, Blob, FreePool s3 NewBlob)
    else
      let s4 := { s3 with mBlobInfo := { s3.mBlobInfo with Data := NewBlob } }
      (EFI_SUCCESS, NewBlob, FreePool s4 Blob)

/-- Function `RegisterDtBlob`: size and checksum are taken from `mBlobInfo.Data`, the table
installed is the argument `Blob`. The header of `mBlobInfo.Data` is read first: when that
pointer is null and page 0 is not mapped the read stops the program (`none`). -/
def RegisterDtBlob (fw : Firmware) (s : State) (Blob : Nat) : Option (EFI_STATUS × State) :=
  if s.mBlobInfo.Data = 0 ∧ fw.NullPageMapped = false then none
  else
    let TotalSize := fdt_totalsize s.mem s.mBlobInfo.Data
    let Crc32 := CalculateCrc32 s.mem s.mBlobInfo.Data TotalSize
    let s1 := { s with
      mBlobInfo := { s.mBlobInfo with TotalSize := TotalSize, Crc32 := Crc32 },
      log := s.log ++ [Call.CalculateCrc32 s.mBlobInfo.Data TotalSize] }
    let r := InstallConfigurationTable (fw.InstallStatus Guid.gFdtTableGuid Blob) s1.dir
      Guid.gFdtTableGuid Blob
    some (r.1, { s1 with
      dir := r.2,
      log := s1.log ++ [Call.InstallConfigurationTable Guid.gFdtTableGuid Blob] })

/-- Function `ExitBootServicesHook`. The status handed to `InstallConfigurationTable` is
irrelevant here: both installs are of a null table. -/
def ExitBootServicesHook (s : State) : State :=
  let r := EfiGetSystemConfigurationTable s.dir Guid.gFdtTableGuid
  if EFI_ERROR r.1 then s
  else
    let Data := r.2
    let Crc32 := CalculateCrc32 s.mem Data (fdt_totalsize s.mem Data)
    let s1 := s.note (Call.CalculateCrc32 Data (fdt_totalsize s.mem Data))
    if Crc32 = s1.mBlobInfo.Crc32 then s1
    else
      let d1 := (InstallConfigurationTable EFI_SUCCESS s1.dir Guid.gEfiAcpiTableGuid 0).2
      let d2 := (InstallConfigurationTable EFI_SUCCESS d1 Guid.gEfiAcpi20TableGuid 0).2
      { s1 with dir := d2,
                log := s1.log ++ [Call.InstallConfigurationTable Guid.gEfiAcpiTableGuid 0,
                                  Call.InstallConfigurationTable Guid.gEfiAcpi20TableGuid 0] }


/-! ## LoadAndRegisterDtb -/

/-- The array `PrioritizedCHIDs`, most specific kind first. -/
def PrioritizedCHIDs : List CHID :=
  [CHID.CHID_3, CHID.CHID_6, CHID.CHID_8, CHID.CHID_10, CHID.CHID_4, CHID.CHID_5,
   CHID.CHID_7, CHID.CHID_9, CHID.CHID_11]

/-- The locals of `LoadAndRegisterDtb` that the resolver writes. -/
structure Locals where
  Status : EFI_STATUS
  Blob : Nat
  CurrentCHID : CHID
  deriving DecidableEq, Repr

/-- Modelled from the spec: `ReadFdt` (declared in `Common.h`) is not in `DtbLoader.c`;
`open(pathPattern, args...) -> Bytes | NotFound`. A successful read puts the file contents
in a fresh pool buffer and stores its address in `*Blob`; a failed read leaves `*Blob` as
it was (the caller never looks at it after a failure). -/
def ReadFdt (fw : Firmware) (p : FdtPath) (v : Locals) (s : State) : Locals × State :=
  let r := fw.ReadFdt p
  let s1 := s.note (Call.ReadFdt p)
  if EFI_ERROR r.1 then ({ v with Status := r.1 }, s1)
  else ({ v with Status := r.1, Blob := r.2.1 },
        { s1 with mem := writeBytes s1.mem r.2.1 r.2.2, pool := r.2.1 :: s1.pool })

/-- The `for` loop of `LoadAndRegisterDtb` over the kinds still to be visited: `continue`
when the GUID cannot be derived, `break` on the first successful read. -/
def resolveLoop (fw : Firmware) : List CHID → Locals → State → Locals × State
  | [], v, s => (v, s)
  | k :: ks, v, s =>
    let v1 := { v with CurrentCHID := k }
    let r := fw.GetComputerHardwareId k
    let v2 := { v1 with Status := r.1 }
    let s2 := s.note (Call.GetComputerHardwareId k)
    if EFI_ERROR r.1 then resolveLoop fw ks v2 s2
    else
      let w := ReadFdt fw (FdtPath.dtb r.2) v2 s2
      if !EFI_ERROR w.1.Status then w
      else resolveLoop fw ks w.1 w.2

/-- The resolver of `LoadAndRegisterDtb`: the prioritized loop, then the fallback read of
the fixed file when the loop ended on an error status. -/
def resolve (fw : Firmware) (v : Locals) (s : State) : Locals × State :=
  let w := resolveLoop fw PrioritizedCHIDs v s
  if EFI_ERROR w.1.Status then ReadFdt fw FdtPath.my w.1 w.2 else w

/-- The block of `LoadAndRegisterDtb` entered when the resolver ended on a success status:
`ResizeBlob`, `QcomDetectPanel`, `RegisterDtBlob` (their statuses are dropped), then
`CreateEvent`. `QcomDetectPanel` (declared in `Qcom.h`) is not in `DtbLoader.c`; it is
given the blob to patch and acts on memory only. -/
def augment (fw : Firmware) (v : Locals) (s : State) : Option (Locals × State) :=
  let a := ResizeBlob fw s v.Blob
  let v1 := { v with Blob := a.2.1 }
  let s1 := a.2.2
  let s2 := { s1 with mem := fw.QcomDetectPanel s1.mem v1.Blob v1.CurrentCHID,
                      log := s1.log ++ [Call.QcomDetectPanel v1.Blob v1.CurrentCHID] }
  match RegisterDtBlob fw s2 v1.Blob with
  | none => none
  | some b =>
    let s3 := b.2.note Call.CreateEvent
    some ({ v1 with Status := fw.CreateEvent },
          { s3 with hooked := s3.hooked || !EFI_ERROR fw.CreateEvent })

/-- Function `LoadAndRegisterDtb`. `Blob` and `CurrentCHID` start uninitialised; neither is
read before it is written, so the start values `v0` do not matter. `PrintChid` only prints
(and is empty under `MDEPKG_NDEBUG`), it leaves no trace here. -/
def LoadAndRegisterDtb (fw : Firmware) (v0 : Locals) (s : State) :
    Option (EFI_STATUS × State) :=
  if EFI_ERROR fw.GetLoadedImageProtocol then some (fw.GetLoadedImageProtocol, s)
  else if EFI_ERROR fw.GetLoadedImageFileSystem then some (fw.GetLoadedImageFileSystem, s)
  else if EFI_ERROR fw.ReadSmbiosInfo then some (fw.ReadSmbiosInfo, s)
  else if EFI_ERROR fw.OpenVolume then some (fw.OpenVolume, s)
  else
    let w := resolve fw { v0 with Status := fw.OpenVolume } s
    if !EFI_ERROR w.1.Status then
      match augment fw w.1 w.2 with
      | none => none
      | some x => some (fw.RootClose, x.2.note Call.RootClose)
    else some (fw.RootClose, w.2.note Call.RootClose)

/-! ## UefiMain -/

/-- Function `LoadNextStage`: the chainload of `grubaa64.efi`. Only the fact that it is
entered and the status it ends with are kept. -/
def LoadNextStage (fw : Firmware) (s : State) : EFI_STATUS × State :=
  (fw.LoadNextStage, s.note Call.LoadNextStage)

/-- Function `InstallRtPropertiesTable`: an 8-byte table (version 1, length 8, no runtime
service supported) installed under its own identity. With a null `Table` the program stops
at `ASSERT (Table != NULL)` where asserts are enabled, and otherwise at the write through
the null pointer unless page 0 is mapped; with a failed install it stops at
`ASSERT_EFI_ERROR (Status)` where asserts are enabled. -/
def InstallRtPropertiesTable (fw : Firmware) (s : State) : Option State :=
  let Table := fw.AllocateRuntimePool 8
  if Table = 0 ∧ (fw.AssertsEnabled = true ∨ fw.NullPageMapped = false) then none
  else
    let s1 := { s with mem := writeBytes s.mem Table [1, 0, 8, 0, 0, 0, 0, 0] }
    let r := InstallConfigurationTable (fw.InstallStatus Guid.gEfiRtPropertiesTableGuid Table)
      s1.dir Guid.gEfiRtPropertiesTableGuid Table
    if EFI_ERROR r.1 = true ∧ fw.AssertsEnabled = true then none
    else some { s1 with
      dir := r.2,
      log := s1.log ++
        [Call.InstallConfigurationTable Guid.gEfiRtPropertiesTableGuid Table] }

/-- Function `UefiMain`. -/
def UefiMain (fw : Firmware) (v0 : Locals) (s : State) : Option (EFI_STATUS × State) :=
  match InstallRtPropertiesTable fw s with
  | none => none
  | some s1 =>
    if fw.GetSmbiosTable then
      match LoadAndRegisterDtb fw v0 s1 with
      | none => none
      | some r => if EFI_ERROR r.1 then some r else some (LoadNextStage fw r.2)
    else some (LoadNextStage fw s1)

/-! ## Sample platform pieces used to run the definitions on concrete inputs -/

/-- A sample expand that always succeeds: it copies the blob, or as much of it as the new
buffer takes, to the new buffer. -/
def expandCopy (mem : Mem) (fdt buf : Nat) (bufsize : Int) : Int × Mem :=
  (0, writeBytes mem buf (readBytes mem fdt (min (fdt_totalsize mem fdt) bufsize.toNat)))

/-- A 16-byte blob: magic, declared size 16, eight bytes of content. -/
def blob16 : List Nat := [0xd0, 0x0d, 0xfe, 0xed, 0, 0, 0, 16, 1, 2, 3, 4, 5, 6, 7, 8]

/-- A directory holding the two ACPI tables and nothing else. -/
def acpiOnly : TableDirectory := fun g =>
  if g = Guid.gEfiAcpiTableGuid then some 0x5000
  else if g = Guid.gEfiAcpi20TableGuid then some 0x6000 else none

/-- A platform on which every service succeeds: every kind derives a GUID, only the file of
`dtbGuid` exists (its contents are `blob16`, read to address `0x1000`). Page 0 is mapped
and asserts are off. -/
def samplePlatform (dtbGuid : Nat) : Firmware where
  GetLoadedImageProtocol := EFI_SUCCESS
  GetLoadedImageFileSystem := EFI_SUCCESS
  ReadSmbiosInfo := EFI_SUCCESS
  OpenVolume := EFI_SUCCESS
  GetComputerHardwareId := fun k =>
    (EFI_SUCCESS, match k with
      | CHID.CHID_3 => 3 | CHID.CHID_4 => 4 | CHID.CHID_5 => 5 | CHID.CHID_6 => 6
      | CHID.CHID_7 => 7 | CHID.CHID_8 => 8 | CHID.CHID_9 => 9 | CHID.CHID_10 => 10
      | CHID.CHID_11 => 11 | CHID.CHID_13 => 13 | CHID.CHID_14 => 14)
  ReadFdt := fun p =>
    if p = FdtPath.dtb dtbGuid then (EFI_SUCCESS, 0x1000, blob16) else (EFI_NOT_FOUND, 0, [])
  AllocatePool := fun _ => 0x2000
  expand := expandCopy
  QcomDetectPanel := fun mem _ _ => mem
  InstallStatus := fun _ _ => EFI_SUCCESS
  CreateEvent := EFI_SUCCESS
  RootClose := EFI_SUCCESS
  GetSmbiosTable := true
  AllocateRuntimePool := fun _ => 0x3000
  LoadNextStage := EFI_SUCCESS
  NullPageMapped := true
  AssertsEnabled := false

/-- The state at program start: nothing allocated, ACPI tables installed, `mBlobInfo` zero. -/
def bootState : State where
  mem := fun _ => 0
  pool := []
  dir := acpiOnly
  mBlobInfo := { Crc32 := 0, TotalSize := 0, Data := 0 }
  hooked := false
  log := []

/-- Locals before anything is assigned. -/
def locals0 : Locals := { Status := EFI_LOAD_ERROR, Blob := 0, CurrentCHID := CHID.CHID_14 }

/-- The state holding `blob16` at `0x1000` with `mBlobInfo.Data` naming it, as a successful
`ResizeBlob` leaves things. -/
def grown16 : State :=
  { bootState with mem := writeBytes (fun _ => 0) 0x1000 blob16, pool := [0x1000],
                   mBlobInfo := { Crc32 := 0, TotalSize := 0, Data := 0x1000 } }

/-- The state right after `RegisterDtBlob` has published the blob of `grown16`. -/
def published16 : State :=
  match RegisterDtBlob (samplePlatform 3) grown16 0x1000 with
  | some r => r.2
  | none => grown16

/-- State `published16` with the device-tree blob installed by a loader and its content
bytes rewritten in place (header untouched): bytes 8..15 become `9 2 3 4 234 46 179 205`. -/
def rewritten16 : State :=
  { published16 with mem := writeBytes published16.mem 0x1008 [9, 2, 3, 4, 234, 46, 179, 205] }

/-- State `published16` after the header size field was raised from 16 to 20 and four
bytes were written into the headroom right behind the blob. -/
def resized20 : State :=
  { published16 with
    mem := writeBytes (writeBytes published16.mem 0x1007 [20]) 0x1010 [76, 31, 121, 178] }

/-- State `published16` after the first content byte was changed from 1 to 9. -/
def touched16 : State :=
  { published16 with mem := writeBytes published16.mem 0x1008 [9] }

/-- A 12-byte blob: magic, declared size 12, four bytes of content. -/
def blob12 : List Nat := [0xd0, 0x0d, 0xfe, 0xed, 0, 0, 0, 12, 1, 2, 3, 4]

/-- A state in which `mBlobInfo.Data` still names an older buffer (`blob16` at `0x1000`)
while a second blob (`blob12`) sits at `0x4000`. -/
def staleState : State :=
  { bootState with
    mem := writeBytes (writeBytes (fun _ => 0) 0x1000 blob16) 0x4000 blob12,
    pool := [0x4000, 0x1000],
    mBlobInfo := { Crc32 := 0, TotalSize := 0, Data := 0x1000 } }

/-- Platform `samplePlatform 3` on which the firmware refuses to install a table. -/
def noInstallPlatform : Firmware :=
  { samplePlatform 3 with InstallStatus := fun _ _ => EFI_OUT_OF_RESOURCES }

/-- A blob at `0x8000` whose header declares a total size of `0xFFFFFC80` bytes. -/
def hugeState : State :=
  { bootState with
    mem := writeBytes (fun _ => 0) 0x8000 [0xd0, 0x0d, 0xfe, 0xed, 0xff, 0xff, 0xfc, 0x80],
    pool := [0x8000] }

/-- The state holding `blob16` at `0x1000`, as a successful `ReadFdt` leaves it. -/
def loaded16 : State :=
  { bootState with mem := writeBytes (fun _ => 0) 0x1000 blob16, pool := [0x1000] }

/-- A kind yields a blob when its GUID is derived and the file named after it is read. -/
def kindOk (fw : Firmware) (k : CHID) : Bool :=
  !EFI_ERROR (fw.GetComputerHardwareId k).1 &&
    !EFI_ERROR (fw.ReadFdt (FdtPath.dtb (fw.GetComputerHardwareId k).2)).1

/-- The calls of one pass through the loop body for kind `k`: the GUID derivation, followed
by the file read only when the derivation succeeded. -/
def attemptLog (fw : Firmware) (k : CHID) : List Call :=
  if EFI_ERROR (fw.GetComputerHardwareId k).1 then [Call.GetComputerHardwareId k]
  else [Call.GetComputerHardwareId k,
        Call.ReadFdt (FdtPath.dtb (fw.GetComputerHardwareId k).2)]

/-- A platform on which `CHID_3` derives no GUID, the file of `CHID_6` does not exist, and
the files of `CHID_8` (at `0x1000`) and `CHID_10` (at `0x4000`) both exist. -/
def mixedPlatform : Firmware :=
  { samplePlatform 8 with
    GetComputerHardwareId := fun k =>
      if k = CHID.CHID_3 then (EFI_NOT_FOUND, 0)
      else (samplePlatform 8).GetComputerHardwareId k
    ReadFdt := fun p =>
      if p = FdtPath.dtb 8 then (EFI_SUCCESS, 0x1000, blob16)
      else if p = FdtPath.dtb 10 then (EFI_SUCCESS, 0x4000, blob12)
      else (EFI_NOT_FOUND, 0, []) }

/-- A platform on which no kind has a file, the last kind (`CHID_11`) derives no GUID, and
the fallback file exists (read to `0x4000`). -/
def fallbackPlatform : Firmware :=
  { samplePlatform 8 with
    GetComputerHardwareId := fun k =>
      if k = CHID.CHID_11 then (EFI_NOT_FOUND, 0)
      else (samplePlatform 8).GetComputerHardwareId k
    ReadFdt := fun p =>
      if p = FdtPath.my then (EFI_SUCCESS, 0x4000, blob12) else (EFI_NOT_FOUND, 0, []) }

/-- A platform with no device-tree file at all. -/
def emptyPlatform : Firmware :=
  { samplePlatform 8 with ReadFdt := fun _ => (EFI_NOT_FOUND, 0, []) }

/-- Platform `samplePlatform 3` on which `AllocatePool` fails. -/
def noPoolPlatform : Firmware :=
  { samplePlatform 3 with AllocatePool := fun _ => 0 }

/-- Platform `noPoolPlatform` with page 0 not mapped. -/
def noPoolStrictPlatform : Firmware :=
  { noPoolPlatform with NullPageMapped := false }

/-- A blob at `0x8000` whose header declares a total size of `0x7FFFFC00` bytes. -/
def halfState : State :=
  { bootState with
    mem := writeBytes (fun _ => 0) 0x8000 [0xd0, 0x0d, 0xfe, 0xed, 0x7f, 0xff, 0xfc, 0x00],
    pool := [0x8000] }

/-- Platform `samplePlatform 3` on which the SMBIOS information cannot be read. -/
def noSmbiosInfoPlatform : Firmware :=
  { samplePlatform 3 with ReadSmbiosInfo := EFI_NOT_FOUND }

/-- Platform `samplePlatform 3` on which the volume cannot be opened. -/
def noVolumePlatform : Firmware :=
  { samplePlatform 3 with OpenVolume := EFI_NOT_FOUND }

/-- The state `InstallRtPropertiesTable` leaves when it completes (the start state when it
does not). -/
def afterRt (fw : Firmware) (s : State) : State :=
  match InstallRtPropertiesTable fw s with
  | some x => x
  | none => s

/-! ## Lemmas on the directory and the hook -/

theorem install_null_dir (st : EFI_STATUS) (dir : TableDirectory) (g : Guid) :
    (InstallConfigurationTable st dir g 0).2 = Function.update dir g none := by
  unfold InstallConfigurationTable
  cases h : dir g with
  | none =>
    simp only [if_true]
    funext x
    by_cases hx : x = g
    · subst hx; simp [h]
    · simp [Function.update_noteq hx]
  | some p => simp

theorem hook_absent (s : State) (h : s.dir Guid.gFdtTableGuid = none) :
    ExitBootServicesHook s = s := by
  simp [ExitBootServicesHook, EfiGetSystemConfigurationTable, h, EFI_ERROR, EFI_NOT_FOUND]

theorem hook_same (s : State) (Data : Nat) (h : s.dir Guid.gFdtTableGuid = some Data)
    (hc : CalculateCrc32 s.mem Data (fdt_totalsize s.mem Data) = s.mBlobInfo.Crc32) :
    ExitBootServicesHook s = s.note (Call.CalculateCrc32 Data (fdt_totalsize s.mem Data)) := by
  simp [ExitBootServicesHook, EfiGetSystemConfigurationTable, h, EFI_ERROR, EFI_SUCCESS,
    State.note, hc]

theorem hook_changed (s : State) (Data : Nat) (h : s.dir Guid.gFdtTableGuid = some Data)
    (hc : CalculateCrc32 s.mem Data (fdt_totalsize s.mem Data) ≠ s.mBlobInfo.Crc32) :
    ExitBootServicesHook s =
      { s with
        dir := Function.update (Function.update s.dir Guid.gEfiAcpiTableGuid none)
                 Guid.gEfiAcpi20TableGuid none,
        log := s.log ++ [Call.CalculateCrc32 Data (fdt_totalsize s.mem Data),
                         Call.InstallConfigurationTable Guid.gEfiAcpiTableGuid 0,
                         Call.InstallConfigurationTable Guid.gEfiAcpi20TableGuid 0] } := by
  simp [ExitBootServicesHook, EfiGetSystemConfigurationTable, h, EFI_ERROR, EFI_SUCCESS,
    State.note, hc, install_null_dir]

theorem hook_mem (s : State) : (ExitBootServicesHook s).mem = s.mem := by
  cases h : s.dir Guid.gFdtTableGuid with
  | none => rw [hook_absent s h]
  | some Data =>
    by_cases hc : CalculateCrc32 s.mem Data (fdt_totalsize s.mem Data) = s.mBlobInfo.Crc32
    · rw [hook_same s Data h hc]; rfl
    · rw [hook_changed s Data h hc]

theorem hook_blobinfo (s : State) : (ExitBootServicesHook s).mBlobInfo = s.mBlobInfo := by
  cases h : s.dir Guid.gFdtTableGuid with
  | none => rw [hook_absent s h]
  | some Data =>
    by_cases hc : CalculateCrc32 s.mem Data (fdt_totalsize s.mem Data) = s.mBlobInfo.Crc32
    · rw [hook_same s Data h hc]; rfl
    · rw [hook_changed s Data h hc]

theorem hook_dir_other (s : State) (g : Guid) (h1 : g ≠ Guid.gEfiAcpiTableGuid)
    (h2 : g ≠ Guid.gEfiAcpi20TableGuid) : (ExitBootServicesHook s).dir g = s.dir g := by
  cases h : s.dir Guid.gFdtTableGuid with
  | none => rw [hook_absent s h]
  | some Data =>
    by_cases hc : CalculateCrc32 s.mem Data (fdt_totalsize s.mem Data) = s.mBlobInfo.Crc32
    · rw [hook_same s Data h hc]; rfl
    · rw [hook_changed s Data h hc]
      simp [Function.update_noteq h1, Function.update_noteq h2]

theorem hook_changed_dir (s : State) (Data : Nat)
    (h : s.dir Guid.gFdtTableGuid = some Data)
    (hc : CalculateCrc32 s.mem Data (fdt_totalsize s.mem Data) ≠ s.mBlobInfo.Crc32) :
    (ExitBootServicesHook s).dir Guid.gEfiAcpiTableGuid = none ∧
    (ExitBootServicesHook s).dir Guid.gEfiAcpi20TableGuid = none ∧
    (ExitBootServicesHook s).dir Guid.gFdtTableGuid = s.dir Guid.gFdtTableGuid := by
  rw [hook_changed s Data h hc]
  simp

/-! ## The exit-boot-services hook -/

/-- C2: the hook removes the two ACPI entries (a null install under each, in that order)
exactly when a device-tree entry is present and the CRC-32 recomputed over it differs from
the recorded one; otherwise the directory is left as it was; the device-tree entry and
every non-ACPI entry are unchanged in all cases. -/
theorem hook_removes_acpi_iff_changed (s : State) :
    ((∃ Data, s.dir Guid.gFdtTableGuid = some Data ∧
        CalculateCrc32 s.mem Data (fdt_totalsize s.mem Data) ≠ s.mBlobInfo.Crc32) →
      (ExitBootServicesHook s).dir Guid.gEfiAcpiTableGuid = none ∧
      (ExitBootServicesHook s).dir Guid.gEfiAcpi20TableGuid = none ∧
      (ExitBootServicesHook s).log.drop (s.log.length + 1) =
        [Call.InstallConfigurationTable Guid.gEfiAcpiTableGuid 0,
         Call.InstallConfigurationTable Guid.gEfiAcpi20TableGuid 0]) ∧
    (¬ (∃ Data, s.dir Guid.gFdtTableGuid = some Data ∧
        CalculateCrc32 s.mem Data (fdt_totalsize s.mem Data) ≠ s.mBlobInfo.Crc32) →
      (ExitBootServicesHook s).dir = s.dir ∧
      ∀ g t, Call.InstallConfigurationTable g t ∉
        (ExitBootServicesHook s).log.drop s.log.length) ∧
    (ExitBootServicesHook s).dir Guid.gFdtTableGuid = s.dir Guid.gFdtTableGuid ∧
    (∀ g, g ≠ Guid.gEfiAcpiTableGuid → g ≠ Guid.gEfiAcpi20TableGuid →
      (ExitBootServicesHook s).dir g = s.dir g) := by
  refine ⟨?_, ?_, hook_dir_other s _ (by decide) (by decide), fun g h1 h2 => hook_dir_other s g h1 h2⟩
  · rintro ⟨Data, h, hc⟩
    rw [hook_changed s Data h hc]
    refine ⟨?_, ?_, ?_⟩
    · simp
    · simp
    · simp [List.drop_append_eq_append_drop]
  · intro hn
    cases h : s.dir Guid.gFdtTableGuid with
    | none => rw [hook_absent s h]; simp
    | some Data =>
      have hc : CalculateCrc32 s.mem Data (fdt_totalsize s.mem Data) = s.mBlobInfo.Crc32 := by
        by_contra hne
        exact hn ⟨Data, h, hne⟩
      rw [hook_same s Data h hc]
      simp [State.note]

/-- C2 run on a concrete state: the published blob had one content byte changed, so both
ACPI entries go and the device-tree entry stays. -/
theorem hook_removes_acpi_iff_changed_witness :
    (ExitBootServicesHook touched16).dir Guid.gEfiAcpiTableGuid = none ∧
    (ExitBootServicesHook touched16).dir Guid.gEfiAcpi20TableGuid = none ∧
    (ExitBootServicesHook touched16).dir Guid.gFdtTableGuid = some 0x1000 := by
  have h := hook_removes_acpi_iff_changed touched16
  refine ⟨(h.1 ⟨0x1000, by decide, by decide⟩).1, (h.1 ⟨0x1000, by decide, by decide⟩).2.1, ?_⟩
  rw [h.2.2.1]
  decide

/-- C10: a second delivery of the event leaves the directory (and memory and the recorded
descriptor) exactly as the first delivery left it. -/
theorem hook_twice_eq_once (s : State) :
    (ExitBootServicesHook (ExitBootServicesHook s)).dir = (ExitBootServicesHook s).dir ∧
    (ExitBootServicesHook (ExitBootServicesHook s)).mem = (ExitBootServicesHook s).mem ∧
    (ExitBootServicesHook (ExitBootServicesHook s)).mBlobInfo =
      (ExitBootServicesHook s).mBlobInfo := by
  refine ⟨?_, hook_mem _, hook_blobinfo _⟩
  cases h : s.dir Guid.gFdtTableGuid with
  | none => rw [hook_absent s h, hook_absent s h]
  | some Data =>
    by_cases hc : CalculateCrc32 s.mem Data (fdt_totalsize s.mem Data) = s.mBlobInfo.Crc32
    · rw [hook_same s Data h hc]
      have h2 : (s.note (Call.CalculateCrc32 Data (fdt_totalsize s.mem Data))).dir
          Guid.gFdtTableGuid = some Data := h
      rw [hook_same _ Data h2 hc]
      rfl
    · have h2 : (ExitBootServicesHook s).dir Guid.gFdtTableGuid = some Data := by
        rw [hook_dir_other s _ (by decide) (by decide)]; exact h
      have hc2 : CalculateCrc32 (ExitBootServicesHook s).mem Data
          (fdt_totalsize (ExitBootServicesHook s).mem Data) ≠
          (ExitBootServicesHook s).mBlobInfo.Crc32 := by
        rw [hook_mem, hook_blobinfo]; exact hc
      rw [hook_changed _ Data h2 hc2]
      rw [hook_changed s Data h hc]
      funext g
      by_cases h1 : g = Guid.gEfiAcpi20TableGuid <;> by_cases h3 : g = Guid.gEfiAcpiTableGuid <;>
        simp [Function.update, h1, h3]

/-- C9, as stated, fails: the blob was published with recorded size 16, its size field was
then raised to 20; the hook checksums 20 bytes (the length re-read from the blob), finds the
recorded CRC and keeps the ACPI entries, although the CRC over the recorded 16 bytes differs
from the recorded one. -/
theorem hook_length_is_reread_counterexample :
    (RegisterDtBlob (samplePlatform 3) grown16 0x1000).map (fun r => r.2.mBlobInfo)
      = some { Crc32 := 0x390b9f04, TotalSize := 16, Data := 0x1000 } ∧
    resized20.mBlobInfo.TotalSize = 16 ∧
    resized20.dir Guid.gFdtTableGuid = some 0x1000 ∧
    (ExitBootServicesHook resized20).log.drop resized20.log.length =
      [Call.CalculateCrc32 0x1000 20] ∧
    CalculateCrc32 resized20.mem 0x1000 resized20.mBlobInfo.TotalSize ≠
      resized20.mBlobInfo.Crc32 ∧
    (ExitBootServicesHook resized20).dir Guid.gEfiAcpiTableGuid = some 0x5000 ∧
    (ExitBootServicesHook resized20).dir Guid.gEfiAcpi20TableGuid = some 0x6000 := by
  decide

/-- C9, amended: for a device-tree entry `Data` found at the event, the fingerprint the hook
compares with the recorded `mBlobInfo.Crc32` is the CRC-32 of the bytes at `Data` whose
number is read from the header of that blob as it is now (`fdt_totalsize`): that is the
length handed to `CalculateCrc32`, the directory is left alone exactly when that CRC-32
equals the recorded one and loses both ACPI entries otherwise, and the recorded `TotalSize`
is not consulted (whatever it holds, the directory ends the same). -/
theorem hook_length_is_current_totalsize (s : State) (Data : Nat)
    (h : s.dir Guid.gFdtTableGuid = some Data) :
    (∃ rest, (ExitBootServicesHook s).log =
      s.log ++ Call.CalculateCrc32 Data (fdt_totalsize s.mem Data) :: rest) ∧
    (((readBytes s.mem Data (fdt_totalsize s.mem Data)).foldl crc32Byte 0xFFFFFFFF)
        ^^^ 0xFFFFFFFF = s.mBlobInfo.Crc32 →
      (ExitBootServicesHook s).dir = s.dir) ∧
    (((readBytes s.mem Data (fdt_totalsize s.mem Data)).foldl crc32Byte 0xFFFFFFFF)
        ^^^ 0xFFFFFFFF ≠ s.mBlobInfo.Crc32 →
      (ExitBootServicesHook s).dir =
        Function.update (Function.update s.dir Guid.gEfiAcpiTableGuid none)
          Guid.gEfiAcpi20TableGuid none) ∧
    (∀ n, (ExitBootServicesHook
        { s with mBlobInfo := { s.mBlobInfo with TotalSize := n } }).dir =
      (ExitBootServicesHook s).dir) := by
  refine ⟨?_, ?_, ?_, ?_⟩
  · by_cases hc : CalculateCrc32 s.mem Data (fdt_totalsize s.mem Data) = s.mBlobInfo.Crc32
    · exact ⟨[], by rw [hook_same s Data h hc]; rfl⟩
    · exact ⟨_, by rw [hook_changed s Data h hc]⟩
  · intro hc
    rw [hook_same s Data h hc]
    rfl
  · intro hc
    rw [hook_changed s Data h hc]
  · intro n
    by_cases hc : CalculateCrc32 s.mem Data (fdt_totalsize s.mem Data) = s.mBlobInfo.Crc32
    · have e1 := hook_same s Data h hc
      have e2 := hook_same { s with mBlobInfo := { s.mBlobInfo with TotalSize := n } } Data h hc
      rw [e1, e2]; rfl
    · have e1 := hook_changed s Data h hc
      have e2 := hook_changed { s with mBlobInfo := { s.mBlobInfo with TotalSize := n } }
        Data h hc
      rw [e1, e2]

/-- C9 amended, run on the state whose size field was raised to 20: the CRC-32 of the 20
bytes now declared equals the recorded one, so the directory is kept, although the CRC-32
of the 16 bytes recorded at publication differs. -/
theorem hook_length_is_current_totalsize_witness :
    resized20.dir Guid.gFdtTableGuid = some 0x1000 ∧
    fdt_totalsize resized20.mem 0x1000 = 20 ∧
    resized20.mBlobInfo.TotalSize = 16 ∧
    ((readBytes resized20.mem 0x1000 20).foldl crc32Byte 0xFFFFFFFF) ^^^ 0xFFFFFFFF
      = resized20.mBlobInfo.Crc32 ∧
    ((readBytes resized20.mem 0x1000 16).foldl crc32Byte 0xFFFFFFFF) ^^^ 0xFFFFFFFF
      ≠ resized20.mBlobInfo.Crc32 ∧
    (ExitBootServicesHook resized20).dir = resized20.dir :=
  ⟨by decide, by decide, by decide, by decide, by decide,
   (hook_length_is_current_totalsize resized20 0x1000 (by decide)).2.1 (by decide)⟩

/-- C4, as stated, fails: the published 16-byte blob has its content bytes rewritten (its
first 16 bytes differ from the published ones) but the CRC-32 of the rewritten blob equals
the recorded one, so the hook keeps both ACPI entries. -/
theorem rewritten_blob_keeps_acpi_counterexample :
    (RegisterDtBlob (samplePlatform 3) grown16 0x1000).map (fun r => r.1)
      = some EFI_SUCCESS ∧
    published16.dir Guid.gFdtTableGuid = some 0x1000 ∧
    published16.mBlobInfo = { Crc32 := 0x390b9f04, TotalSize := 16, Data := 0x1000 } ∧
    readBytes published16.mem 0x1000 16 = blob16 ∧
    readBytes rewritten16.mem 0x1000 16 =
      [0xd0, 0x0d, 0xfe, 0xed, 0, 0, 0, 16, 9, 2, 3, 4, 234, 46, 179, 205] ∧
    (ExitBootServicesHook rewritten16).dir Guid.gEfiAcpiTableGuid = some 0x5000 ∧
    (ExitBootServicesHook rewritten16).dir Guid.gEfiAcpi20TableGuid = some 0x6000 := by
  decide

/-! ## RegisterDtBlob -/

theorem RegisterDtBlob_some (fw : Firmware) (s : State) (Blob : Nat)
    (h : s.mBlobInfo.Data ≠ 0 ∨ fw.NullPageMapped = true) :
    RegisterDtBlob fw s Blob =
      some ((InstallConfigurationTable (fw.InstallStatus Guid.gFdtTableGuid Blob) s.dir
              Guid.gFdtTableGuid Blob).1,
            { s with
              mBlobInfo :=
                { Crc32 := CalculateCrc32 s.mem s.mBlobInfo.Data
                    (fdt_totalsize s.mem s.mBlobInfo.Data),
                  TotalSize := fdt_totalsize s.mem s.mBlobInfo.Data,
                  Data := s.mBlobInfo.Data },
              dir := (InstallConfigurationTable (fw.InstallStatus Guid.gFdtTableGuid Blob)
                s.dir Guid.gFdtTableGuid Blob).2,
              log := s.log ++
                [Call.CalculateCrc32 s.mBlobInfo.Data (fdt_totalsize s.mem s.mBlobInfo.Data),
                 Call.InstallConfigurationTable Guid.gFdtTableGuid Blob] }) := by
  have hn : ¬ (s.mBlobInfo.Data = 0 ∧ fw.NullPageMapped = false) := by
    rintro ⟨h1, h2⟩
    rcases h with h | h
    · exact h h1
    · rw [h2] at h; exact Bool.false_ne_true h
  unfold RegisterDtBlob
  rw [if_neg hn]
  simp

theorem RegisterDtBlob_none (fw : Firmware) (s : State) (Blob : Nat)
    (h1 : s.mBlobInfo.Data = 0) (h2 : fw.NullPageMapped = false) :
    RegisterDtBlob fw s Blob = none := by
  unfold RegisterDtBlob
  rw [if_pos ⟨h1, h2⟩]

theorem RegisterDtBlob_of_some (fw : Firmware) (s : State) (Blob : Nat)
    (r : EFI_STATUS × State) (h : RegisterDtBlob fw s Blob = some r) :
    s.mBlobInfo.Data ≠ 0 ∨ fw.NullPageMapped = true := by
  by_cases h1 : s.mBlobInfo.Data = 0
  · by_cases h2 : fw.NullPageMapped = true
    · exact Or.inr h2
    · rw [RegisterDtBlob_none fw s Blob h1 (by simpa using h2)] at h
      cases h
  · exact Or.inl h1

theorem install_status (st : EFI_STATUS) (dir : TableDirectory) (g : Guid) (Table : Nat)
    (hT : Table ≠ 0) : (InstallConfigurationTable st dir g Table).1 = st := by
  unfold InstallConfigurationTable
  by_cases he : EFI_ERROR st = true <;> simp [hT, he]

theorem install_dir_ok (st : EFI_STATUS) (dir : TableDirectory) (g : Guid) (Table : Nat)
    (hT : Table ≠ 0) (he : EFI_ERROR st = false) :
    (InstallConfigurationTable st dir g Table).2 = Function.update dir g (some Table) := by
  simp [InstallConfigurationTable, hT, he]

theorem install_dir_fail (st : EFI_STATUS) (dir : TableDirectory) (g : Guid) (Table : Nat)
    (hT : Table ≠ 0) (he : EFI_ERROR st = true) :
    (InstallConfigurationTable st dir g Table).2 = dir := by
  simp [InstallConfigurationTable, hT, he]

/-- C4, amended: for a non-null blob that `RegisterDtBlob` published with a success status,
when memory is altered so that the CRC-32 the hook recomputes (over the blob as it is now,
up to its current declared size) differs from the recorded `mBlobInfo.Crc32`, the hook
removes both ACPI entries and leaves the device-tree entry on the published blob. -/
theorem altered_crc_removes_acpi (fw : Firmware) (s : State) (Blob : Nat)
    (st : EFI_STATUS) (pub : State) (mem' : Mem)
    (hPub : RegisterDtBlob fw s Blob = some (st, pub))
    (hBlob : Blob ≠ 0) (hOk : EFI_ERROR st = false)
    (hcrc : CalculateCrc32 mem' Blob (fdt_totalsize mem' Blob) ≠ pub.mBlobInfo.Crc32) :
    (ExitBootServicesHook { pub with mem := mem' }).dir Guid.gEfiAcpiTableGuid = none ∧
    (ExitBootServicesHook { pub with mem := mem' }).dir Guid.gEfiAcpi20TableGuid = none ∧
    (ExitBootServicesHook { pub with mem := mem' }).dir Guid.gFdtTableGuid = some Blob ∧
    pub.dir Guid.gFdtTableGuid = some Blob := by
  have hs := RegisterDtBlob_some fw s Blob (RegisterDtBlob_of_some fw s Blob _ hPub)
  rw [hs] at hPub
  have e := Option.some.inj hPub
  have e1 : (InstallConfigurationTable (fw.InstallStatus Guid.gFdtTableGuid Blob) s.dir
      Guid.gFdtTableGuid Blob).1 = st := congrArg Prod.fst e
  have e2 := congrArg Prod.snd e
  simp only at e2
  rw [install_status _ _ _ _ hBlob] at e1
  have hInst : EFI_ERROR (fw.InstallStatus Guid.gFdtTableGuid Blob) = false := by
    rw [e1]; exact hOk
  have hd : pub.dir Guid.gFdtTableGuid = some Blob := by
    rw [← e2]
    show (InstallConfigurationTable (fw.InstallStatus Guid.gFdtTableGuid Blob) s.dir
      Guid.gFdtTableGuid Blob).2 Guid.gFdtTableGuid = some Blob
    rw [install_dir_ok _ _ _ _ hBlob hInst]
    simp
  have h1 : ({ pub with mem := mem' } : State).dir Guid.gFdtTableGuid = some Blob := hd
  have h3 := hook_changed_dir { pub with mem := mem' } Blob h1 hcrc
  exact ⟨h3.1, h3.2.1, by rw [h3.2.2]; exact hd, hd⟩

/-- C4 amended, run on the published 16-byte blob after one content byte was changed: the
recomputed CRC-32 differs from the recorded one and both ACPI entries are removed. -/
theorem altered_crc_removes_acpi_witness :
    (RegisterDtBlob (samplePlatform 3) grown16 0x1000).map (fun r => EFI_ERROR r.1)
      = some false ∧
    CalculateCrc32 touched16.mem 0x1000 (fdt_totalsize touched16.mem 0x1000) ≠
      published16.mBlobInfo.Crc32 ∧
    (ExitBootServicesHook touched16).dir Guid.gEfiAcpiTableGuid = none ∧
    (ExitBootServicesHook touched16).dir Guid.gEfiAcpi20TableGuid = none ∧
    (ExitBootServicesHook touched16).dir Guid.gFdtTableGuid = some 0x1000 ∧
    published16.dir Guid.gFdtTableGuid = some 0x1000 :=
  ⟨by decide, by decide,
   altered_crc_removes_acpi (samplePlatform 3) grown16 0x1000 EFI_SUCCESS published16
    (writeBytes published16.mem 0x1008 [9]) rfl (by decide) (by decide) (by decide)⟩

/-- C6, as stated, fails. With `mBlobInfo.Data` naming another buffer (a 16-byte blob at
`0x1000`), `RegisterDtBlob (0x4000)` installs the 12-byte blob at `0x4000` but records size,
checksum and buffer of the blob at `0x1000`. With `mBlobInfo.Data` still null (never
assigned, page 0 mapped) the recorded buffer stays null, not the blob. And when the firmware
refuses the install, the device-tree entry does not hold the blob. -/
theorem RegisterDtBlob_records_global_counterexample :
    fdt_totalsize staleState.mem 0x4000 = 12 ∧
    (RegisterDtBlob (samplePlatform 3) staleState 0x4000).map (fun r => r.1)
      = some EFI_SUCCESS ∧
    (RegisterDtBlob (samplePlatform 3) staleState 0x4000).map
      (fun r => r.2.dir Guid.gFdtTableGuid) = some (some 0x4000) ∧
    (RegisterDtBlob (samplePlatform 3) staleState 0x4000).map (fun r => r.2.mBlobInfo)
      = some { Crc32 := 0x390b9f04, TotalSize := 16, Data := 0x1000 } ∧
    CalculateCrc32 staleState.mem 0x4000 12 ≠ 0x390b9f04 ∧
    (RegisterDtBlob (samplePlatform 3) loaded16 0x1000).map (fun r => r.2.mBlobInfo.Data)
      = some 0 ∧
    (RegisterDtBlob noInstallPlatform grown16 0x1000).map
      (fun r => (EFI_ERROR r.1, r.2.dir Guid.gFdtTableGuid)) = some (true, none) := by
  decide

/-- C6, amended: when `mBlobInfo.Data` already names the non-null blob handed to
`RegisterDtBlob` (as a successful `ResizeBlob` leaves it), the call returns the status of the
install call and records the blob's declared total size and the CRC-32 of exactly that many
of its bytes, the recorded buffer stays that blob; this holds whether or not the install
succeeds. When it succeeds the device-tree entry holds the blob (replacing whatever was
there) and no other entry changes; when it fails the directory is left as it was. -/
theorem RegisterDtBlob_records_blob (fw : Firmware) (s : State) (Blob : Nat)
    (hData : s.mBlobInfo.Data = Blob) (hBlob : Blob ≠ 0) :
    ∃ pub, RegisterDtBlob fw s Blob = some (fw.InstallStatus Guid.gFdtTableGuid Blob, pub) ∧
      pub.mBlobInfo.TotalSize = fdt_totalsize s.mem Blob ∧
      pub.mBlobInfo.Crc32 =
        ((readBytes s.mem Blob (fdt_totalsize s.mem Blob)).foldl crc32Byte 0xFFFFFFFF)
          ^^^ 0xFFFFFFFF ∧
      pub.mBlobInfo.Data = Blob ∧
      pub.mem = s.mem ∧
      pub.log =
        s.log ++ [Call.CalculateCrc32 Blob (fdt_totalsize s.mem Blob),
                  Call.InstallConfigurationTable Guid.gFdtTableGuid Blob] ∧
      (EFI_ERROR (fw.InstallStatus Guid.gFdtTableGuid Blob) = false →
        pub.dir Guid.gFdtTableGuid = some Blob ∧
        ∀ g, g ≠ Guid.gFdtTableGuid → pub.dir g = s.dir g) ∧
      (EFI_ERROR (fw.InstallStatus Guid.gFdtTableGuid Blob) = true → pub.dir = s.dir) := by
  have hs := RegisterDtBlob_some fw s Blob (Or.inl (by rw [hData]; exact hBlob))
  rw [install_status _ _ _ _ hBlob] at hs
  refine ⟨_, hs, ?_, ?_, ?_, rfl, ?_, ?_, ?_⟩
  · simp [hData]
  · simp [hData, CalculateCrc32]
  · simp [hData]
  · simp [hData]
  · intro hInst
    simp only [install_dir_ok _ _ _ _ hBlob hInst]
    exact ⟨by simp, fun g hg => Function.update_noteq hg _ _⟩
  · intro hInst
    simp only [install_dir_fail _ _ _ _ hBlob hInst]

/-- C6 amended, run on the 16-byte blob at `0x1000`, already named by `mBlobInfo.Data`,
with a directory that holds an older device-tree entry. -/
theorem RegisterDtBlob_records_blob_witness :
    ({ loaded16 with dir := Function.update acpiOnly Guid.gFdtTableGuid (some 0x7000),
                     mBlobInfo := { Crc32 := 7, TotalSize := 7, Data := 0x1000 } }
      : State).mBlobInfo.Data = 0x1000 ∧
    (RegisterDtBlob (samplePlatform 3)
      { loaded16 with dir := Function.update acpiOnly Guid.gFdtTableGuid (some 0x7000),
                      mBlobInfo := { Crc32 := 7, TotalSize := 7, Data := 0x1000 } }
      0x1000).map (fun r => r.2.mBlobInfo)
        = some { Crc32 := 0x390b9f04, TotalSize := 16, Data := 0x1000 } ∧
    (∃ pub, RegisterDtBlob (samplePlatform 3)
      { loaded16 with dir := Function.update acpiOnly Guid.gFdtTableGuid (some 0x7000),
                      mBlobInfo := { Crc32 := 7, TotalSize := 7, Data := 0x1000 } }
      0x1000 = some (EFI_SUCCESS, pub) ∧ pub.dir Guid.gFdtTableGuid = some 0x1000) := by
  rcases RegisterDtBlob_records_blob (samplePlatform 3)
    { loaded16 with dir := Function.update acpiOnly Guid.gFdtTableGuid (some 0x7000),
                    mBlobInfo := { Crc32 := 7, TotalSize := 7, Data := 0x1000 } }
    0x1000 rfl (by decide) with ⟨pub, h, _, _, _, _, _, hok, _⟩
  exact ⟨rfl, by decide, pub, h, (hok (by decide)).1⟩

/-! ## ResizeBlob -/

theorem fdt_totalsize_set (m : Mem) (p n : Nat) (hn : n < 2 ^ 32) :
    fdt_totalsize (writeBytes m (p + 4) (be32 n)) p = n := by
  have h4 : (be32 n).length = 4 := rfl
  have r0 : writeBytes m (p + 4) (be32 n) (p + 4) = n / 2 ^ 24 % 256 % 256 := by
    simp [writeBytes, h4, be32]
  have r1 : writeBytes m (p + 4) (be32 n) (p + 5) = n / 2 ^ 16 % 256 % 256 := by
    have e : p + 5 - (p + 4) = 1 := by omega
    simp [writeBytes, h4, e, be32]
  have r2 : writeBytes m (p + 4) (be32 n) (p + 6) = n / 2 ^ 8 % 256 % 256 := by
    have e : p + 6 - (p + 4) = 2 := by omega
    simp [writeBytes, h4, e, be32]
  have r3 : writeBytes m (p + 4) (be32 n) (p + 7) = n % 256 % 256 := by
    have e : p + 7 - (p + 4) = 3 := by omega
    simp [writeBytes, h4, e, be32]
  unfold fdt_totalsize
  rw [r0, r1, r2, r3]
  norm_num at hn ⊢
  omega

theorem fdt_open_into_size (fw : Firmware) (m : Mem) (fdt buf : Nat) (z : Int)
    (h : (fdt_open_into fw m fdt buf z).1 = 0) :
    fdt_totalsize (fdt_open_into fw m fdt buf z).2 buf = (z % 2 ^ 32).toNat := by
  unfold fdt_open_into at h ⊢
  by_cases he : (fw.expand m fdt buf z).1 = 0
  · simp only [he, ne_eq, not_true_eq_false, if_false]
    apply fdt_totalsize_set
    have : (0 : Int) ≤ z % 2 ^ 32 := Int.emod_nonneg _ (by norm_num)
    have : z % 2 ^ 32 < 2 ^ 32 := Int.emod_lt_of_pos _ (by norm_num)
    omega
  · simp only [ne_eq, he, not_false_eq_true, if_true] at h

theorem toInt32_small (n : Nat) (h : n < 2 ^ 31) : toInt32 n = (n : Int) := by
  have h1 : n % 2 ^ 32 = n := Nat.mod_eq_of_lt (by omega)
  unfold toInt32
  rw [h1, if_pos h]

/-- C5, as stated, fails. For a blob whose header declares `0xFFFFFC80` bytes the 32-bit sum
wraps: `ResizeBlob` asks for `0x80` bytes and, the allocation and the expand succeeding, ends
with a blob of declared size `0x80`, not `0xFFFFFC80 + 0x400`. For a blob that declares
`0x7FFFFC00` bytes the `0x80000000` bytes requested reach libfdt as the `int` `-2147483648`,
not as that same size. -/
theorem ResizeBlob_wraps_counterexample :
    fdt_totalsize hugeState.mem 0x8000 = 0xFFFFFC80 ∧
    (ResizeBlob (samplePlatform 3) hugeState 0x8000).1 = EFI_SUCCESS ∧
    (ResizeBlob (samplePlatform 3) hugeState 0x8000).2.1 = 0x2000 ∧
    (ResizeBlob (samplePlatform 3) hugeState 0x8000).2.2.log =
      [Call.AllocatePool 0x80, Call.fdt_open_into 0x8000 0x2000 0x80, Call.FreePool 0x8000] ∧
    fdt_totalsize (ResizeBlob (samplePlatform 3) hugeState 0x8000).2.2.mem 0x2000 = 0x80 ∧
    0x80 ≠ 0xFFFFFC80 + FDT_ADDITIONAL_SIZE ∧
    fdt_totalsize halfState.mem 0x8000 = 0x7FFFFC00 ∧
    (ResizeBlob (samplePlatform 3) halfState 0x8000).1 = EFI_SUCCESS ∧
    (ResizeBlob (samplePlatform 3) halfState 0x8000).2.2.log =
      [Call.AllocatePool 0x80000000, Call.fdt_open_into 0x8000 0x2000 (-2147483648),
       Call.FreePool 0x8000] := by
  decide

/-- C5, amended: for a blob of declared size `S` with `S + 0x400 < 2 ^ 31`, when the
allocation succeeds and the library expand succeeds, `ResizeBlob` asks for exactly
`S + 0x400` bytes, expands into the new buffer with that size, releases the original
buffer, and returns with the caller's handle and `mBlobInfo.Data` on the new buffer, whose
declared size is `S + 0x400`. -/
theorem ResizeBlob_grows (fw : Firmware) (s : State) (Blob : Nat)
    (hS : fdt_totalsize s.mem Blob + FDT_ADDITIONAL_SIZE < 2 ^ 31)
    (hA : fw.AllocatePool (fdt_totalsize s.mem Blob + FDT_ADDITIONAL_SIZE) ≠ 0)
    (hE : (fdt_open_into fw s.mem Blob
            (fw.AllocatePool (fdt_totalsize s.mem Blob + FDT_ADDITIONAL_SIZE))
            ((fdt_totalsize s.mem Blob + FDT_ADDITIONAL_SIZE : Nat) : Int)).1 = 0) :
    (ResizeBlob fw s Blob).1 = EFI_SUCCESS ∧
    (ResizeBlob fw s Blob).2.1 =
      fw.AllocatePool (fdt_totalsize s.mem Blob + FDT_ADDITIONAL_SIZE) ∧
    (ResizeBlob fw s Blob).2.2.log = s.log ++
      [Call.AllocatePool (fdt_totalsize s.mem Blob + 0x400),
       Call.fdt_open_into Blob (fw.AllocatePool (fdt_totalsize s.mem Blob + FDT_ADDITIONAL_SIZE))
         ((fdt_totalsize s.mem Blob + 0x400 : Nat) : Int),
       Call.FreePool Blob] ∧
    fdt_totalsize (ResizeBlob fw s Blob).2.2.mem (ResizeBlob fw s Blob).2.1 =
      fdt_totalsize s.mem Blob + 0x400 ∧
    Blob ∉ (ResizeBlob fw s Blob).2.2.pool ∧
    (ResizeBlob fw s Blob).2.2.mBlobInfo.Data = (ResizeBlob fw s Blob).2.1 := by
  have hmod : (fdt_totalsize s.mem Blob + FDT_ADDITIONAL_SIZE) % 2 ^ 32 =
      fdt_totalsize s.mem Blob + FDT_ADDITIONAL_SIZE := Nat.mod_eq_of_lt (by omega)
  have hF : FDT_ADDITIONAL_SIZE = 0x400 := rfl
  have hsz := fdt_open_into_size fw s.mem Blob _ _ hE
  have hto : (((fdt_totalsize s.mem Blob + FDT_ADDITIONAL_SIZE : Nat) : Int) % 2 ^ 32).toNat
      = fdt_totalsize s.mem Blob + FDT_ADDITIONAL_SIZE := by omega
  rw [hto] at hsz
  unfold ResizeBlob
  simp only [hmod, toInt32_small _ hS, State.note, FreePool]
  rw [if_neg hA]
  simp only [hE, ne_eq, not_true_eq_false, if_false]
  refine ⟨trivial, trivial, ?_, ?_, ?_, trivial⟩
  · simp [hF]
  · rw [← hF]; exact hsz
  · simp [List.mem_filter]

/-- C5 amended, run on the 16-byte blob: `0x410` bytes are requested and the grown blob at
`0x2000` declares `0x410` bytes. -/
theorem ResizeBlob_grows_witness :
    fdt_totalsize loaded16.mem 0x1000 + FDT_ADDITIONAL_SIZE < 2 ^ 31 ∧
    (samplePlatform 3).AllocatePool (fdt_totalsize loaded16.mem 0x1000 + FDT_ADDITIONAL_SIZE)
      = 0x2000 ∧
    (fdt_open_into (samplePlatform 3) loaded16.mem 0x1000 0x2000 0x410).1 = 0 ∧
    (ResizeBlob (samplePlatform 3) loaded16 0x1000).1 = EFI_SUCCESS ∧
    (ResizeBlob (samplePlatform 3) loaded16 0x1000).2.1 = 0x2000 ∧
    (ResizeBlob (samplePlatform 3) loaded16 0x1000).2.2.log =
      [Call.AllocatePool 0x410, Call.fdt_open_into 0x1000 0x2000 0x410, Call.FreePool 0x1000] ∧
    fdt_totalsize (ResizeBlob (samplePlatform 3) loaded16 0x1000).2.2.mem 0x2000 = 0x410 ∧
    0x1000 ∉ (ResizeBlob (samplePlatform 3) loaded16 0x1000).2.2.pool := by
  have h := ResizeBlob_grows (samplePlatform 3) loaded16 0x1000 (by decide) (by decide)
    (by decide)
  exact ⟨by decide, by decide, by decide, h.1, h.2.1, h.2.2.1, h.2.2.2.1, h.2.2.2.2.1⟩

/-! ## The resolver -/

theorem ReadFdt_fail (fw : Firmware) (p : FdtPath) (v : Locals) (s : State)
    (h : EFI_ERROR (fw.ReadFdt p).1 = true) :
    ReadFdt fw p v s = ({ v with Status := (fw.ReadFdt p).1 }, s.note (Call.ReadFdt p)) := by
  simp [ReadFdt, h]

theorem ReadFdt_ok (fw : Firmware) (p : FdtPath) (v : Locals) (s : State)
    (h : EFI_ERROR (fw.ReadFdt p).1 = false) :
    ReadFdt fw p v s =
      ({ v with Status := (fw.ReadFdt p).1, Blob := (fw.ReadFdt p).2.1 },
       { s with mem := writeBytes s.mem (fw.ReadFdt p).2.1 (fw.ReadFdt p).2.2,
                pool := (fw.ReadFdt p).2.1 :: s.pool,
                log := s.log ++ [Call.ReadFdt p] }) := by
  simp [ReadFdt, h, State.note]

theorem my_not_in_attempts (fw : Firmware) (ks : List CHID) :
    Call.ReadFdt FdtPath.my ∉ ks.flatMap (attemptLog fw) := by
  intro h
  rcases List.mem_flatMap.1 h with ⟨k, _, hk⟩
  unfold attemptLog at hk
  split at hk <;> simp at hk

theorem first_ok_split (fw : Firmware) (ks : List CHID)
    (h : ∃ k ∈ ks, kindOk fw k = true) :
    ∃ pre k post, ks = pre ++ k :: post ∧ (∀ j ∈ pre, kindOk fw j = false) ∧
      kindOk fw k = true := by
  induction ks with
  | nil => rcases h with ⟨k, hk, _⟩; cases hk
  | cons a ks ih =>
    by_cases ha : kindOk fw a = true
    · exact ⟨[], a, ks, rfl, by simp, ha⟩
    · have ha2 : kindOk fw a = false := by simpa using ha
      have h2 : ∃ k ∈ ks, kindOk fw k = true := by
        rcases h with ⟨k, hk, hok⟩
        rcases List.mem_cons.1 hk with rfl | hk
        · exact absurd hok ha
        · exact ⟨k, hk, hok⟩
      rcases ih h2 with ⟨pre, k, post, e, hp, hk⟩
      refine ⟨a :: pre, k, post, by rw [e]; rfl, ?_, hk⟩
      intro j hj
      rcases List.mem_cons.1 hj with rfl | hj
      · exact ha2
      · exact hp j hj

theorem resolveLoop_all_fail (fw : Firmware) (ks : List CHID) :
    ∀ (v : Locals) (s : State), (∀ k ∈ ks, kindOk fw k = false) →
      (resolveLoop fw ks v s).2 = { s with log := s.log ++ ks.flatMap (attemptLog fw) } ∧
      (resolveLoop fw ks v s).1.Blob = v.Blob ∧
      (ks ≠ [] → EFI_ERROR (resolveLoop fw ks v s).1.Status = true) := by
  induction ks with
  | nil => intro v s _; simp [resolveLoop]
  | cons a ks ih =>
    intro v s h
    have ha : kindOk fw a = false := h a (by simp)
    have hks : ∀ k ∈ ks, kindOk fw k = false := fun k hk => h k (by simp [hk])
    by_cases hg : EFI_ERROR (fw.GetComputerHardwareId a).1 = true
    · have e : resolveLoop fw (a :: ks) v s =
          resolveLoop fw ks { v with CurrentCHID := a, Status := (fw.GetComputerHardwareId a).1 }
            (s.note (Call.GetComputerHardwareId a)) := by
        simp [resolveLoop, hg]
      rw [e]
      have i := ih { v with CurrentCHID := a, Status := (fw.GetComputerHardwareId a).1 }
        (s.note (Call.GetComputerHardwareId a)) hks
      refine ⟨?_, i.2.1, ?_⟩
      · rw [i.1]; simp [State.note, attemptLog, hg]
      · intro _
        by_cases hn : ks = []
        · subst hn; simpa [resolveLoop] using hg
        · exact i.2.2 hn
    · have hg2 : EFI_ERROR (fw.GetComputerHardwareId a).1 = false := by simpa using hg
      have hr : EFI_ERROR (fw.ReadFdt (FdtPath.dtb (fw.GetComputerHardwareId a).2)).1 = true := by
        simpa [kindOk, hg2] using ha
      have e : resolveLoop fw (a :: ks) v s =
          resolveLoop fw ks
            { v with CurrentCHID := a,
                     Status := (fw.ReadFdt (FdtPath.dtb (fw.GetComputerHardwareId a).2)).1 }
            ((s.note (Call.GetComputerHardwareId a)).note
              (Call.ReadFdt (FdtPath.dtb (fw.GetComputerHardwareId a).2))) := by
        simp [resolveLoop, hg2, ReadFdt_fail _ _ _ _ hr, hr]
      rw [e]
      have i := ih
        { v with CurrentCHID := a,
                 Status := (fw.ReadFdt (FdtPath.dtb (fw.GetComputerHardwareId a).2)).1 }
        ((s.note (Call.GetComputerHardwareId a)).note
          (Call.ReadFdt (FdtPath.dtb (fw.GetComputerHardwareId a).2))) hks
      refine ⟨?_, i.2.1, ?_⟩
      · rw [i.1]; simp [State.note, attemptLog, hg2]
      · intro _
        by_cases hn : ks = []
        · subst hn; simpa [resolveLoop] using hr
        · exact i.2.2 hn

theorem resolveLoop_first_ok (fw : Firmware) (k : CHID) (post : List CHID)
    (hk : kindOk fw k = true) (pre : List CHID) :
    ∀ (v : Locals) (s : State), (∀ j ∈ pre, kindOk fw j = false) →
      resolveLoop fw (pre ++ k :: post) v s =
        ({ Status := (fw.ReadFdt (FdtPath.dtb (fw.GetComputerHardwareId k).2)).1,
           Blob := (fw.ReadFdt (FdtPath.dtb (fw.GetComputerHardwareId k).2)).2.1,
           CurrentCHID := k },
         { s with
           mem := writeBytes s.mem (fw.ReadFdt (FdtPath.dtb (fw.GetComputerHardwareId k).2)).2.1
                    (fw.ReadFdt (FdtPath.dtb (fw.GetComputerHardwareId k).2)).2.2,
           pool := (fw.ReadFdt (FdtPath.dtb (fw.GetComputerHardwareId k).2)).2.1 :: s.pool,
           log := s.log ++ pre.flatMap (attemptLog fw) ++
                    [Call.GetComputerHardwareId k,
                     Call.ReadFdt (FdtPath.dtb (fw.GetComputerHardwareId k).2)] }) := by
  have hg : EFI_ERROR (fw.GetComputerHardwareId k).1 = false := by
    simp [kindOk] at hk; exact hk.1
  have hr : EFI_ERROR (fw.ReadFdt (FdtPath.dtb (fw.GetComputerHardwareId k).2)).1 = false := by
    simp [kindOk] at hk; exact hk.2
  induction pre with
  | nil =>
    intro v s _
    simp [resolveLoop, hg, ReadFdt_ok _ _ _ _ hr, hr, State.note]
  | cons a pre ih =>
    intro v s h
    have ha : kindOk fw a = false := h a (by simp)
    have hpre : ∀ j ∈ pre, kindOk fw j = false := fun j hj => h j (by simp [hj])
    by_cases hga : EFI_ERROR (fw.GetComputerHardwareId a).1 = true
    · have e : resolveLoop fw (a :: pre ++ k :: post) v s =
          resolveLoop fw (pre ++ k :: post)
            { v with CurrentCHID := a, Status := (fw.GetComputerHardwareId a).1 }
            (s.note (Call.GetComputerHardwareId a)) := by
        simp [resolveLoop, hga]
      rw [e, ih _ _ hpre]
      simp [State.note, attemptLog, hga]
    · have hga2 : EFI_ERROR (fw.GetComputerHardwareId a).1 = false := by simpa using hga
      have hra : EFI_ERROR (fw.ReadFdt (FdtPath.dtb (fw.GetComputerHardwareId a).2)).1 = true := by
        simpa [kindOk, hga2] using ha
      have e : resolveLoop fw (a :: pre ++ k :: post) v s =
          resolveLoop fw (pre ++ k :: post)
            { v with CurrentCHID := a,
                     Status := (fw.ReadFdt (FdtPath.dtb (fw.GetComputerHardwareId a).2)).1 }
            ((s.note (Call.GetComputerHardwareId a)).note
              (Call.ReadFdt (FdtPath.dtb (fw.GetComputerHardwareId a).2))) := by
        simp [resolveLoop, hga2, ReadFdt_fail _ _ _ _ hra, hra]
      rw [e, ih _ _ hpre]
      simp [State.note, attemptLog, hga2]

theorem getId_in_attempts (fw : Firmware) (ks : List CHID) (j : CHID)
    (h : Call.GetComputerHardwareId j ∈ ks.flatMap (attemptLog fw)) : j ∈ ks := by
  rcases List.mem_flatMap.1 h with ⟨a, ha, hj⟩
  unfold attemptLog at hj
  split at hj <;> simp at hj <;> (subst hj; exact ha)

theorem resolve_eq_loop (fw : Firmware) (v : Locals) (s : State)
    (h : ∃ k ∈ PrioritizedCHIDs, kindOk fw k = true) :
    ∃ pre k post, PrioritizedCHIDs = pre ++ k :: post ∧ (∀ j ∈ pre, kindOk fw j = false) ∧
      kindOk fw k = true ∧
      resolve fw v s = resolveLoop fw (pre ++ k :: post) v s ∧
      EFI_ERROR (resolve fw v s).1.Status = false ∧
      (resolve fw v s).2.log = s.log ++ pre.flatMap (attemptLog fw) ++
        [Call.GetComputerHardwareId k,
         Call.ReadFdt (FdtPath.dtb (fw.GetComputerHardwareId k).2)] := by
  rcases first_ok_split fw PrioritizedCHIDs h with ⟨pre, k, post, e, hp, hk⟩
  have hr : EFI_ERROR (fw.ReadFdt (FdtPath.dtb (fw.GetComputerHardwareId k).2)).1 = false := by
    simp [kindOk] at hk; exact hk.2
  have hl := resolveLoop_first_ok fw k post hk pre v s hp
  have key : resolve fw v s = resolveLoop fw (pre ++ k :: post) v s := by
    unfold resolve
    rw [e, hl]
    simp [hr]
  refine ⟨pre, k, post, e, hp, hk, key, ?_, ?_⟩
  · rw [key, hl]; exact hr
  · rw [key, hl]

theorem resolve_all_fail (fw : Firmware) (v : Locals) (s : State)
    (h : ∀ k ∈ PrioritizedCHIDs, kindOk fw k = false) :
    resolve fw v s =
      ReadFdt fw FdtPath.my (resolveLoop fw PrioritizedCHIDs v s).1
        { s with log := s.log ++ PrioritizedCHIDs.flatMap (attemptLog fw) } := by
  have hl := resolveLoop_all_fail fw PrioritizedCHIDs v s h
  have hs := hl.2.2 (by decide)
  unfold resolve
  simp only [hs, if_true]
  rw [hl.1]

theorem resolveLoop_first_facts (fw : Firmware) (v : Locals) (s : State)
    (pre : List CHID) (k : CHID) (post : List CHID)
    (hP : PrioritizedCHIDs = pre ++ k :: post)
    (hpre : ∀ j ∈ pre, kindOk fw j = false) (hk : kindOk fw k = true) :
    (resolveLoop fw PrioritizedCHIDs v s).1.Blob =
      (fw.ReadFdt (FdtPath.dtb (fw.GetComputerHardwareId k).2)).2.1 ∧
    EFI_ERROR (resolveLoop fw PrioritizedCHIDs v s).1.Status = false ∧
    (resolveLoop fw PrioritizedCHIDs v s).1.CurrentCHID = k ∧
    (resolveLoop fw PrioritizedCHIDs v s).2.mem =
      writeBytes s.mem (fw.ReadFdt (FdtPath.dtb (fw.GetComputerHardwareId k).2)).2.1
        (fw.ReadFdt (FdtPath.dtb (fw.GetComputerHardwareId k).2)).2.2 ∧
    (resolveLoop fw PrioritizedCHIDs v s).2.log =
      s.log ++
        pre.flatMap (fun j =>
          if EFI_ERROR (fw.GetComputerHardwareId j).1 then [Call.GetComputerHardwareId j]
          else [Call.GetComputerHardwareId j,
                Call.ReadFdt (FdtPath.dtb (fw.GetComputerHardwareId j).2)]) ++
        [Call.GetComputerHardwareId k,
         Call.ReadFdt (FdtPath.dtb (fw.GetComputerHardwareId k).2)] ∧
    (∀ j ∈ post, Call.GetComputerHardwareId j ∉
      (resolveLoop fw PrioritizedCHIDs v s).2.log.drop s.log.length) := by
  have hr : EFI_ERROR (fw.ReadFdt (FdtPath.dtb (fw.GetComputerHardwareId k).2)).1 = false := by
    simp [kindOk] at hk; exact hk.2
  have hl := resolveLoop_first_ok fw k post hk pre v s hpre
  have hnd : (pre ++ k :: post).Nodup := by rw [← hP]; decide
  rw [hP, hl]
  refine ⟨rfl, hr, rfl, rfl, rfl, ?_⟩
  intro j hj hmem
  simp only [List.append_assoc, List.drop_left] at hmem
  rcases List.mem_append.1 hmem with h1 | h1
  · have hjpre : j ∈ pre := getId_in_attempts fw pre j h1
    have hd := (List.nodup_append.1 hnd).2.2
    exact hd hjpre (List.mem_cons_of_mem _ hj)
  · simp at h1
    subst h1
    have h2 := (List.nodup_append.1 hnd).2.1
    exact (List.nodup_cons.1 h2).1 hj

/-- C1: if at least one prioritized kind succeeds (its GUID is derived and its file is
read), then `PrioritizedCHIDs` splits as `pre ++ k :: post` with every kind of `pre` failing
and `k` succeeding, and the loop ends on a success status holding the blob read for `k`.
The calls made are, for each kind of `pre` in order, its GUID derivation followed by a file
read only if the derivation succeeded, then the derivation and the read for `k`; no kind of
`post` is tried. -/
theorem resolver_first_match (fw : Firmware) (v : Locals) (s : State)
    (h : ∃ k ∈ PrioritizedCHIDs, kindOk fw k = true) :
    ∃ pre k post, PrioritizedCHIDs = pre ++ k :: post ∧
      (∀ j ∈ pre, kindOk fw j = false) ∧ kindOk fw k = true ∧
      (resolveLoop fw PrioritizedCHIDs v s).1.Blob =
        (fw.ReadFdt (FdtPath.dtb (fw.GetComputerHardwareId k).2)).2.1 ∧
      EFI_ERROR (resolveLoop fw PrioritizedCHIDs v s).1.Status = false ∧
      (resolveLoop fw PrioritizedCHIDs v s).1.CurrentCHID = k ∧
      (resolveLoop fw PrioritizedCHIDs v s).2.mem =
        writeBytes s.mem (fw.ReadFdt (FdtPath.dtb (fw.GetComputerHardwareId k).2)).2.1
          (fw.ReadFdt (FdtPath.dtb (fw.GetComputerHardwareId k).2)).2.2 ∧
      (resolveLoop fw PrioritizedCHIDs v s).2.log =
        s.log ++
          pre.flatMap (fun j =>
            if EFI_ERROR (fw.GetComputerHardwareId j).1 then [Call.GetComputerHardwareId j]
            else [Call.GetComputerHardwareId j,
                  Call.ReadFdt (FdtPath.dtb (fw.GetComputerHardwareId j).2)]) ++
          [Call.GetComputerHardwareId k,
           Call.ReadFdt (FdtPath.dtb (fw.GetComputerHardwareId k).2)] ∧
      (∀ j ∈ post, Call.GetComputerHardwareId j ∉
        (resolveLoop fw PrioritizedCHIDs v s).2.log.drop s.log.length) := by
  rcases first_ok_split fw PrioritizedCHIDs h with ⟨pre, k, post, e, hp, hk⟩
  exact ⟨pre, k, post, e, hp, hk, resolveLoop_first_facts fw v s pre k post e hp hk⟩

/-- C1 run on a platform where `CHID_3` derives no GUID, the file of `CHID_6` is missing and
the files of `CHID_8` and of the later `CHID_10` both exist: the blob of `CHID_8` is held,
`CHID_3` caused no file read, and nothing after `CHID_8` was tried. -/
theorem resolver_first_match_witness :
    (∃ k ∈ PrioritizedCHIDs, kindOk mixedPlatform k = true) ∧
    (∃ pre k post, PrioritizedCHIDs = pre ++ k :: post ∧
      (∀ j ∈ pre, kindOk mixedPlatform j = false) ∧ kindOk mixedPlatform k = true ∧
      (resolveLoop mixedPlatform PrioritizedCHIDs locals0 bootState).1.Blob =
        (mixedPlatform.ReadFdt
          (FdtPath.dtb (mixedPlatform.GetComputerHardwareId k).2)).2.1) ∧
    (resolveLoop mixedPlatform PrioritizedCHIDs locals0 bootState).1.Blob = 0x1000 ∧
    (resolveLoop mixedPlatform PrioritizedCHIDs locals0 bootState).2.log =
      [Call.GetComputerHardwareId CHID.CHID_3,
       Call.GetComputerHardwareId CHID.CHID_6, Call.ReadFdt (FdtPath.dtb 6),
       Call.GetComputerHardwareId CHID.CHID_8, Call.ReadFdt (FdtPath.dtb 8)] := by
  have hex : ∃ k ∈ PrioritizedCHIDs, kindOk mixedPlatform k = true :=
    ⟨CHID.CHID_8, by decide, by decide⟩
  rcases resolver_first_match mixedPlatform locals0 bootState hex with
    ⟨pre, k, post, e, hp, hk, hb, _⟩
  exact ⟨hex, ⟨pre, k, post, e, hp, hk, hb⟩, by decide, by decide⟩

theorem LoadAndRegisterDtb_err (fw : Firmware) (v0 : Locals) (s : State)
    (h1 : EFI_ERROR fw.GetLoadedImageProtocol = false)
    (h2 : EFI_ERROR fw.GetLoadedImageFileSystem = false)
    (h3 : EFI_ERROR fw.ReadSmbiosInfo = false)
    (h4 : EFI_ERROR fw.OpenVolume = false)
    (h5 : EFI_ERROR (resolve fw { v0 with Status := fw.OpenVolume } s).1.Status = true) :
    LoadAndRegisterDtb fw v0 s =
      some (fw.RootClose,
        (resolve fw { v0 with Status := fw.OpenVolume } s).2.note Call.RootClose) := by
  simp [LoadAndRegisterDtb, h1, h2, h3, h4, h5]

theorem LoadAndRegisterDtb_ok (fw : Firmware) (v0 : Locals) (s : State)
    (h1 : EFI_ERROR fw.GetLoadedImageProtocol = false)
    (h2 : EFI_ERROR fw.GetLoadedImageFileSystem = false)
    (h3 : EFI_ERROR fw.ReadSmbiosInfo = false)
    (h4 : EFI_ERROR fw.OpenVolume = false)
    (h5 : EFI_ERROR (resolve fw { v0 with Status := fw.OpenVolume } s).1.Status = false) :
    LoadAndRegisterDtb fw v0 s =
      (augment fw (resolve fw { v0 with Status := fw.OpenVolume } s).1
        (resolve fw { v0 with Status := fw.OpenVolume } s).2).map
        (fun x => (fw.RootClose, x.2.note Call.RootClose)) := by
  simp only [LoadAndRegisterDtb, h1, h2, h3, h4, h5, Bool.false_eq_true, if_false,
    Bool.not_false, if_true]
  cases augment fw (resolve fw { v0 with Status := fw.OpenVolume } s).1
    (resolve fw { v0 with Status := fw.OpenVolume } s).2 <;> rfl

/-- C3: when no prioritized kind yields a readable file (a failed GUID derivation counts,
also for the last kind), the fallback file is read exactly once, after the sweep, and its
contents are what the resolver holds if that read succeeds. The resolver ends on an error
status exactly when every kind fails and the fallback read fails too, and then nothing but
the log has changed: `LoadAndRegisterDtb` goes straight to closing the volume. When some kind
succeeds the fallback file is not read. -/
theorem resolver_fallback (fw : Firmware) (v : Locals) (s : State) :
    ((∀ k ∈ PrioritizedCHIDs, kindOk fw k = false) →
      (resolve fw v s).2.log =
        s.log ++ PrioritizedCHIDs.flatMap (attemptLog fw) ++ [Call.ReadFdt FdtPath.my] ∧
      Call.ReadFdt FdtPath.my ∉ PrioritizedCHIDs.flatMap (attemptLog fw) ∧
      (resolve fw v s).1.Status = (fw.ReadFdt FdtPath.my).1 ∧
      (EFI_ERROR (fw.ReadFdt FdtPath.my).1 = false →
        (resolve fw v s).1.Blob = (fw.ReadFdt FdtPath.my).2.1 ∧
        (resolve fw v s).2.mem =
          writeBytes s.mem (fw.ReadFdt FdtPath.my).2.1 (fw.ReadFdt FdtPath.my).2.2)) ∧
    (EFI_ERROR (resolve fw v s).1.Status = true ↔
      (∀ k ∈ PrioritizedCHIDs, kindOk fw k = false) ∧
        EFI_ERROR (fw.ReadFdt FdtPath.my).1 = true) ∧
    (EFI_ERROR (resolve fw v s).1.Status = true →
      (resolve fw v s).2 =
        { s with log := s.log ++ PrioritizedCHIDs.flatMap (attemptLog fw) ++
                          [Call.ReadFdt FdtPath.my] } ∧
      (EFI_ERROR fw.GetLoadedImageProtocol = false →
       EFI_ERROR fw.GetLoadedImageFileSystem = false →
       EFI_ERROR fw.ReadSmbiosInfo = false → EFI_ERROR fw.OpenVolume = false →
        LoadAndRegisterDtb fw v s =
          some (fw.RootClose,
           { s with log := s.log ++ PrioritizedCHIDs.flatMap (attemptLog fw) ++
                             [Call.ReadFdt FdtPath.my] ++ [Call.RootClose] }))) ∧
    ((∃ k ∈ PrioritizedCHIDs, kindOk fw k = true) →
      Call.ReadFdt FdtPath.my ∉ (resolve fw v s).2.log.drop s.log.length) := by
  have part1 : ∀ (w : Locals), (∀ k ∈ PrioritizedCHIDs, kindOk fw k = false) →
      (resolve fw w s).2.log =
        s.log ++ PrioritizedCHIDs.flatMap (attemptLog fw) ++ [Call.ReadFdt FdtPath.my] ∧
      (resolve fw w s).1.Status = (fw.ReadFdt FdtPath.my).1 ∧
      (EFI_ERROR (fw.ReadFdt FdtPath.my).1 = false →
        (resolve fw w s).1.Blob = (fw.ReadFdt FdtPath.my).2.1 ∧
        (resolve fw w s).2.mem =
          writeBytes s.mem (fw.ReadFdt FdtPath.my).2.1 (fw.ReadFdt FdtPath.my).2.2) ∧
      (EFI_ERROR (fw.ReadFdt FdtPath.my).1 = true →
        (resolve fw w s).2 =
          { s with log := s.log ++ PrioritizedCHIDs.flatMap (attemptLog fw) ++
                            [Call.ReadFdt FdtPath.my] }) := by
    intro w h
    rw [resolve_all_fail fw w s h]
    by_cases hf : EFI_ERROR (fw.ReadFdt FdtPath.my).1 = true
    · rw [ReadFdt_fail _ _ _ _ hf]
      simp [State.note, hf]
    · have hf2 : EFI_ERROR (fw.ReadFdt FdtPath.my).1 = false := by simpa using hf
      rw [ReadFdt_ok _ _ _ _ hf2]
      simp [hf2]
  have part2 : ∀ (w : Locals), (EFI_ERROR (resolve fw w s).1.Status = true ↔
      (∀ k ∈ PrioritizedCHIDs, kindOk fw k = false) ∧
        EFI_ERROR (fw.ReadFdt FdtPath.my).1 = true) := by
    intro w
    constructor
    · intro he
      by_cases hall : ∀ k ∈ PrioritizedCHIDs, kindOk fw k = false
      · refine ⟨hall, ?_⟩
        rw [(part1 w hall).2.1] at he
        exact he
      · exfalso
        have hex : ∃ k ∈ PrioritizedCHIDs, kindOk fw k = true := by
          by_contra hne
          apply hall
          intro k hk
          by_contra hk2
          exact hne ⟨k, hk, by simpa using hk2⟩
        rcases resolve_eq_loop fw w s hex with ⟨_, _, _, _, _, _, _, hst, _⟩
        rw [hst] at he
        exact Bool.false_ne_true he
    · rintro ⟨hall, hf⟩
      rw [(part1 w hall).2.1]
      exact hf
  refine ⟨?_, part2 v, ?_, ?_⟩
  · intro h
    exact ⟨(part1 v h).1, my_not_in_attempts fw _, (part1 v h).2.1, (part1 v h).2.2.1⟩
  · intro he
    have hb := (part2 v).1 he
    refine ⟨(part1 v hb.1).2.2.2 hb.2, ?_⟩
    intro h1 h2 h3 h4
    have he2 : EFI_ERROR (resolve fw { v with Status := fw.OpenVolume } s).1.Status = true :=
      (part2 _).2 hb
    rw [LoadAndRegisterDtb_err fw v s h1 h2 h3 h4 he2]
    rw [(part1 _ hb.1).2.2.2 hb.2]
    simp [State.note]
  · intro hex
    rcases resolve_eq_loop fw v s hex with ⟨pre, k, post, _, _, _, _, _, hlog⟩
    rw [hlog]
    simp only [List.append_assoc, List.drop_left]
    intro hmem
    rcases List.mem_append.1 hmem with h1 | h1
    · exact my_not_in_attempts fw pre h1
    · simp at h1

/-- C3 run on a platform where no kind has a file, the last kind derives no GUID and the
fallback file exists: the fallback is read once, last, and its buffer is held. -/
theorem resolver_fallback_witness :
    (resolve fallbackPlatform locals0 bootState).1.Blob = 0x4000 ∧
    (resolve fallbackPlatform locals0 bootState).2.log =
      [Call.GetComputerHardwareId CHID.CHID_3, Call.ReadFdt (FdtPath.dtb 3),
       Call.GetComputerHardwareId CHID.CHID_6, Call.ReadFdt (FdtPath.dtb 6),
       Call.GetComputerHardwareId CHID.CHID_8, Call.ReadFdt (FdtPath.dtb 8),
       Call.GetComputerHardwareId CHID.CHID_10, Call.ReadFdt (FdtPath.dtb 10),
       Call.GetComputerHardwareId CHID.CHID_4, Call.ReadFdt (FdtPath.dtb 4),
       Call.GetComputerHardwareId CHID.CHID_5, Call.ReadFdt (FdtPath.dtb 5),
       Call.GetComputerHardwareId CHID.CHID_7, Call.ReadFdt (FdtPath.dtb 7),
       Call.GetComputerHardwareId CHID.CHID_9, Call.ReadFdt (FdtPath.dtb 9),
       Call.GetComputerHardwareId CHID.CHID_11,
       Call.ReadFdt FdtPath.my] ∧
    EFI_ERROR (resolve emptyPlatform locals0 bootState).1.Status = true := by
  have h := (resolver_fallback fallbackPlatform locals0 bootState).1 (by decide)
  have e := (resolver_fallback emptyPlatform locals0 bootState).2.1
  exact ⟨(h.2.2.2 (by decide)).1, by decide, e.2 ⟨by decide, by decide⟩⟩

/-! ## The pipeline and UefiMain -/

theorem ReadFdt_log (fw : Firmware) (p : FdtPath) (v : Locals) (s : State) :
    (ReadFdt fw p v s).2.log = s.log ++ [Call.ReadFdt p] := by
  by_cases h : EFI_ERROR (fw.ReadFdt p).1 = true
  · rw [ReadFdt_fail _ _ _ _ h]; rfl
  · rw [ReadFdt_ok _ _ _ _ (by simpa using h)]

theorem resolve_log (fw : Firmware) (v : Locals) (s : State) :
    ∃ l, (resolve fw v s).2.log = s.log ++ l ∧ Call.LoadNextStage ∉ l := by
  by_cases hall : ∀ k ∈ PrioritizedCHIDs, kindOk fw k = false
  · refine ⟨PrioritizedCHIDs.flatMap (attemptLog fw) ++ [Call.ReadFdt FdtPath.my], ?_, ?_⟩
    · rw [resolve_all_fail fw v s hall, ReadFdt_log]
      simp
    · intro hmem
      rcases List.mem_append.1 hmem with h1 | h1
      · rcases List.mem_flatMap.1 h1 with ⟨k, _, hk⟩
        unfold attemptLog at hk
        split at hk <;> simp at hk
      · simp at h1
  · have hex : ∃ k ∈ PrioritizedCHIDs, kindOk fw k = true := by
      by_contra hne
      apply hall
      intro k hk
      by_contra hk2
      exact hne ⟨k, hk, by simpa using hk2⟩
    rcases resolve_eq_loop fw v s hex with ⟨pre, k, post, _, _, _, _, _, hlog⟩
    refine ⟨pre.flatMap (attemptLog fw) ++ [Call.GetComputerHardwareId k,
      Call.ReadFdt (FdtPath.dtb (fw.GetComputerHardwareId k).2)], ?_, ?_⟩
    · rw [hlog]; simp
    · intro hmem
      rcases List.mem_append.1 hmem with h1 | h1
      · rcases List.mem_flatMap.1 h1 with ⟨j, _, hj⟩
        unfold attemptLog at hj
        split at hj <;> simp at hj
      · simp at h1

theorem ResizeBlob_log (fw : Firmware) (s : State) (Blob : Nat) :
    ∃ l, (ResizeBlob fw s Blob).2.2.log = s.log ++ l ∧ Call.LoadNextStage ∉ l := by
  unfold ResizeBlob
  dsimp only
  generalize (fdt_totalsize s.mem Blob + FDT_ADDITIONAL_SIZE) % 2 ^ 32 = N
  by_cases hA : fw.AllocatePool N = 0
  · exact ⟨[Call.AllocatePool N], by simp [hA, State.note], by simp⟩
  · by_cases hE : (fdt_open_into fw s.mem Blob (fw.AllocatePool N) (toInt32 N)).1 = 0
    · exact ⟨[Call.AllocatePool N, Call.fdt_open_into Blob (fw.AllocatePool N) (toInt32 N),
        Call.FreePool Blob], by simp [hA, hE, State.note, FreePool], by simp⟩
    · exact ⟨[Call.AllocatePool N, Call.fdt_open_into Blob (fw.AllocatePool N) (toInt32 N),
        Call.FreePool (fw.AllocatePool N)], by simp [hA, hE, State.note, FreePool], by simp⟩

theorem ResizeBlob_success_data (fw : Firmware) (s : State) (Blob : Nat)
    (h : (ResizeBlob fw s Blob).1 = EFI_SUCCESS) :
    (ResizeBlob fw s Blob).2.2.mBlobInfo.Data ≠ 0 := by
  have hne : EFI_OUT_OF_RESOURCES ≠ EFI_SUCCESS := by decide
  unfold ResizeBlob at h ⊢
  dsimp only at h ⊢
  generalize (fdt_totalsize s.mem Blob + FDT_ADDITIONAL_SIZE) % 2 ^ 32 = N at h ⊢
  by_cases hA : fw.AllocatePool N = 0
  · rw [if_pos hA] at h
    exact absurd h hne
  · by_cases hE : (fdt_open_into fw s.mem Blob (fw.AllocatePool N) (toInt32 N)).1 = 0
    · simp [hA, hE, State.note, FreePool]
    · simp only [hA, if_false, State.note, ne_eq, hE, not_false_eq_true, if_true] at h
      exact absurd h hne

theorem augment_eq (fw : Firmware) (v : Locals) (s : State) :
    augment fw v s =
      (RegisterDtBlob fw
        { (ResizeBlob fw s v.Blob).2.2 with
          mem := fw.QcomDetectPanel (ResizeBlob fw s v.Blob).2.2.mem
                   (ResizeBlob fw s v.Blob).2.1 v.CurrentCHID,
          log := (ResizeBlob fw s v.Blob).2.2.log ++
                   [Call.QcomDetectPanel (ResizeBlob fw s v.Blob).2.1 v.CurrentCHID] }
        (ResizeBlob fw s v.Blob).2.1).map
        (fun b =>
          ({ Status := fw.CreateEvent, Blob := (ResizeBlob fw s v.Blob).2.1,
             CurrentCHID := v.CurrentCHID },
           { b.2 with hooked := b.2.hooked || !EFI_ERROR fw.CreateEvent,
                      log := b.2.log ++ [Call.CreateEvent] })) := by
  unfold augment
  dsimp only
  cases RegisterDtBlob fw
    { (ResizeBlob fw s v.Blob).2.2 with
      mem := fw.QcomDetectPanel (ResizeBlob fw s v.Blob).2.2.mem
               (ResizeBlob fw s v.Blob).2.1 v.CurrentCHID,
      log := (ResizeBlob fw s v.Blob).2.2.log ++
               [Call.QcomDetectPanel (ResizeBlob fw s v.Blob).2.1 v.CurrentCHID] }
    (ResizeBlob fw s v.Blob).2.1 <;> rfl

theorem augment_log (fw : Firmware) (v : Locals) (s : State) (x : Locals × State)
    (hx : augment fw v s = some x) :
    ∃ l, x.2.log = s.log ++ l ∧ Call.LoadNextStage ∉ l := by
  rcases ResizeBlob_log fw s v.Blob with ⟨l, hl, hn⟩
  rw [augment_eq] at hx
  rcases Option.map_eq_some'.1 hx with ⟨b, hb, hbx⟩
  have hd := RegisterDtBlob_of_some _ _ _ _ hb
  rw [RegisterDtBlob_some _ _ _ hd] at hb
  have eb := Option.some.inj hb
  refine ⟨l ++ [Call.QcomDetectPanel (ResizeBlob fw s v.Blob).2.1 v.CurrentCHID,
    Call.CalculateCrc32 (ResizeBlob fw s v.Blob).2.2.mBlobInfo.Data
      (fdt_totalsize (fw.QcomDetectPanel (ResizeBlob fw s v.Blob).2.2.mem
        (ResizeBlob fw s v.Blob).2.1 v.CurrentCHID) (ResizeBlob fw s v.Blob).2.2.mBlobInfo.Data),
    Call.InstallConfigurationTable Guid.gFdtTableGuid (ResizeBlob fw s v.Blob).2.1,
    Call.CreateEvent], ?_, ?_⟩
  · rw [← hbx, ← eb]
    simp [hl]
  · simp [hn]

theorem augment_defined (fw : Firmware) (v : Locals) (s : State)
    (h : (ResizeBlob fw s v.Blob).1 = EFI_SUCCESS) :
    ∃ x, augment fw v s = some x := by
  rw [augment_eq]
  have hd := ResizeBlob_success_data fw s v.Blob h
  have hs := RegisterDtBlob_some fw
    { (ResizeBlob fw s v.Blob).2.2 with
      mem := fw.QcomDetectPanel (ResizeBlob fw s v.Blob).2.2.mem
               (ResizeBlob fw s v.Blob).2.1 v.CurrentCHID,
      log := (ResizeBlob fw s v.Blob).2.2.log ++
               [Call.QcomDetectPanel (ResizeBlob fw s v.Blob).2.1 v.CurrentCHID] }
    (ResizeBlob fw s v.Blob).2.1 (Or.inl hd)
  rw [hs]
  exact ⟨_, rfl⟩

theorem LoadAndRegisterDtb_log (fw : Firmware) (v0 : Locals) (s : State)
    (r : EFI_STATUS × State) (hr : LoadAndRegisterDtb fw v0 s = some r) :
    ∃ l, r.2.log = s.log ++ l ∧ Call.LoadNextStage ∉ l := by
  by_cases h1 : EFI_ERROR fw.GetLoadedImageProtocol = true
  · simp [LoadAndRegisterDtb, h1] at hr
    exact ⟨[], by rw [← hr]; simp, by simp⟩
  by_cases h2 : EFI_ERROR fw.GetLoadedImageFileSystem = true
  · simp [LoadAndRegisterDtb, h1, h2] at hr
    exact ⟨[], by rw [← hr]; simp, by simp⟩
  by_cases h3 : EFI_ERROR fw.ReadSmbiosInfo = true
  · simp [LoadAndRegisterDtb, h1, h2, h3] at hr
    exact ⟨[], by rw [← hr]; simp, by simp⟩
  by_cases h4 : EFI_ERROR fw.OpenVolume = true
  · simp [LoadAndRegisterDtb, h1, h2, h3, h4] at hr
    exact ⟨[], by rw [← hr]; simp, by simp⟩
  rcases resolve_log fw { v0 with Status := fw.OpenVolume } s with ⟨l, hl, hn⟩
  by_cases he : EFI_ERROR (resolve fw { v0 with Status := fw.OpenVolume } s).1.Status = true
  · rw [LoadAndRegisterDtb_err fw v0 s (by simpa using h1) (by simpa using h2)
      (by simpa using h3) (by simpa using h4) he] at hr
    have e := Option.some.inj hr
    refine ⟨l ++ [Call.RootClose], ?_, by simp [hn]⟩
    rw [← e]
    simp [State.note, hl]
  · rw [LoadAndRegisterDtb_ok fw v0 s (by simpa using h1) (by simpa using h2)
      (by simpa using h3) (by simpa using h4) (by simpa using he)] at hr
    rcases Option.map_eq_some'.1 hr with ⟨x, hx, hxr⟩
    rcases augment_log fw _ _ x hx with ⟨l2, hl2, hn2⟩
    refine ⟨l ++ l2 ++ [Call.RootClose], ?_, by simp [hn, hn2]⟩
    rw [← hxr]
    simp [State.note, hl2, hl]

theorem LoadAndRegisterDtb_status (fw : Firmware) (v0 : Locals) (s : State)
    (r : EFI_STATUS × State) (hr : LoadAndRegisterDtb fw v0 s = some r) :
    r.1 =
      (if EFI_ERROR fw.GetLoadedImageProtocol then fw.GetLoadedImageProtocol
       else if EFI_ERROR fw.GetLoadedImageFileSystem then fw.GetLoadedImageFileSystem
       else if EFI_ERROR fw.ReadSmbiosInfo then fw.ReadSmbiosInfo
       else if EFI_ERROR fw.OpenVolume then fw.OpenVolume
       else fw.RootClose) := by
  by_cases h1 : EFI_ERROR fw.GetLoadedImageProtocol = true
  · simp [LoadAndRegisterDtb, h1] at hr
    rw [← hr]; simp [h1]
  by_cases h2 : EFI_ERROR fw.GetLoadedImageFileSystem = true
  · simp [LoadAndRegisterDtb, h1, h2] at hr
    rw [← hr]; simp [h1, h2]
  by_cases h3 : EFI_ERROR fw.ReadSmbiosInfo = true
  · simp [LoadAndRegisterDtb, h1, h2, h3] at hr
    rw [← hr]; simp [h1, h2, h3]
  by_cases h4 : EFI_ERROR fw.OpenVolume = true
  · simp [LoadAndRegisterDtb, h1, h2, h3, h4] at hr
    rw [← hr]; simp [h1, h2, h3, h4]
  by_cases he : EFI_ERROR (resolve fw { v0 with Status := fw.OpenVolume } s).1.Status = true
  · rw [LoadAndRegisterDtb_err fw v0 s (by simpa using h1) (by simpa using h2)
      (by simpa using h3) (by simpa using h4) he] at hr
    rw [← Option.some.inj hr]; simp [h1, h2, h3, h4]
  · rw [LoadAndRegisterDtb_ok fw v0 s (by simpa using h1) (by simpa using h2)
      (by simpa using h3) (by simpa using h4) (by simpa using he)] at hr
    rcases Option.map_eq_some'.1 hr with ⟨x, _, hxr⟩
    rw [← hxr]; simp [h1, h2, h3, h4]

theorem LoadAndRegisterDtb_defined (fw : Firmware) (v0 : Locals) (s : State)
    (hGrow : EFI_ERROR fw.GetLoadedImageProtocol = false →
      EFI_ERROR fw.GetLoadedImageFileSystem = false →
      EFI_ERROR fw.ReadSmbiosInfo = false → EFI_ERROR fw.OpenVolume = false →
      EFI_ERROR (resolve fw { v0 with Status := fw.OpenVolume } s).1.Status = false →
      (ResizeBlob fw (resolve fw { v0 with Status := fw.OpenVolume } s).2
        (resolve fw { v0 with Status := fw.OpenVolume } s).1.Blob).1 = EFI_SUCCESS) :
    ∃ r, LoadAndRegisterDtb fw v0 s = some r := by
  by_cases h1 : EFI_ERROR fw.GetLoadedImageProtocol = true
  · exact ⟨(fw.GetLoadedImageProtocol, s), by simp [LoadAndRegisterDtb, h1]⟩
  by_cases h2 : EFI_ERROR fw.GetLoadedImageFileSystem = true
  · exact ⟨(fw.GetLoadedImageFileSystem, s), by simp [LoadAndRegisterDtb, h1, h2]⟩
  by_cases h3 : EFI_ERROR fw.ReadSmbiosInfo = true
  · exact ⟨(fw.ReadSmbiosInfo, s), by simp [LoadAndRegisterDtb, h1, h2, h3]⟩
  by_cases h4 : EFI_ERROR fw.OpenVolume = true
  · exact ⟨(fw.OpenVolume, s), by simp [LoadAndRegisterDtb, h1, h2, h3, h4]⟩
  by_cases he : EFI_ERROR (resolve fw { v0 with Status := fw.OpenVolume } s).1.Status = true
  · exact ⟨_, LoadAndRegisterDtb_err fw v0 s (by simpa using h1) (by simpa using h2)
      (by simpa using h3) (by simpa using h4) he⟩
  · have hg := hGrow (by simpa using h1) (by simpa using h2) (by simpa using h3)
      (by simpa using h4) (by simpa using he)
    rcases augment_defined fw _ _ hg with ⟨x, hx⟩
    rw [LoadAndRegisterDtb_ok fw v0 s (by simpa using h1) (by simpa using h2)
      (by simpa using h3) (by simpa using h4) (by simpa using he), hx]
    exact ⟨_, rfl⟩

theorem InstallRtPropertiesTable_log (fw : Firmware) (s s1 : State)
    (h : InstallRtPropertiesTable fw s = some s1) :
    s1.log = s.log ++ [Call.InstallConfigurationTable Guid.gEfiRtPropertiesTableGuid
      (fw.AllocateRuntimePool 8)] := by
  unfold InstallRtPropertiesTable at h
  dsimp only at h
  split at h
  · cases h
  · split at h
    · cases h
    · rw [← Option.some.inj h]

theorem status_chain_ok (fw : Firmware) :
    EFI_ERROR
      (if EFI_ERROR fw.GetLoadedImageProtocol then fw.GetLoadedImageProtocol
       else if EFI_ERROR fw.GetLoadedImageFileSystem then fw.GetLoadedImageFileSystem
       else if EFI_ERROR fw.ReadSmbiosInfo then fw.ReadSmbiosInfo
       else if EFI_ERROR fw.OpenVolume then fw.OpenVolume
       else fw.RootClose) = false ↔
      (EFI_ERROR fw.GetLoadedImageProtocol = false ∧
       EFI_ERROR fw.GetLoadedImageFileSystem = false ∧
       EFI_ERROR fw.ReadSmbiosInfo = false ∧
       EFI_ERROR fw.OpenVolume = false ∧
       EFI_ERROR fw.RootClose = false) := by
  by_cases h1 : EFI_ERROR fw.GetLoadedImageProtocol = true
  · simp [h1]
  by_cases h2 : EFI_ERROR fw.GetLoadedImageFileSystem = true
  · simp [h1, h2]
  by_cases h3 : EFI_ERROR fw.ReadSmbiosInfo = true
  · simp [h1, h2, h3]
  by_cases h4 : EFI_ERROR fw.OpenVolume = true
  · simp [h1, h2, h3, h4]
  simp [h1, h2, h3, h4]

/-- C7, as stated, fails: when the SMBIOS information cannot be read, or the volume cannot
be opened, `LoadAndRegisterDtb` returns the error and `UefiMain` returns it at once, without
calling `LoadNextStage`. -/
theorem UefiMain_skips_handoff_counterexample :
    (UefiMain noSmbiosInfoPlatform locals0 bootState).map
      (fun r => (r.1, decide (Call.LoadNextStage ∈ r.2.log))) = some (EFI_NOT_FOUND, false) ∧
    (UefiMain noVolumePlatform locals0 bootState).map
      (fun r => (r.1, decide (Call.LoadNextStage ∈ r.2.log))) = some (EFI_NOT_FOUND, false) ∧
    EFI_ERROR EFI_NOT_FOUND = true := by
  decide

/-- C7, amended: in every run in which `InstallRtPropertiesTable` completes and
`ResizeBlob`, if it is reached, succeeds, `UefiMain` returns. If there is no SMBIOS table, or
getting the loaded-image protocol, getting its file system, reading the SMBIOS information,
opening the volume and closing it all succeed, it calls `LoadNextStage` once, as its last
call, and returns the status of `LoadNextStage`. Otherwise it does not call `LoadNextStage`
and returns the error status of the first of those five calls that failed. What the
resolver finds, and what the install in `RegisterDtBlob` and `CreateEvent` report, has no
part in it. -/
theorem UefiMain_handoff (fw : Firmware) (v0 : Locals) (s s1 : State)
    (hRt : InstallRtPropertiesTable fw s = some s1)
    (hGrow : fw.GetSmbiosTable = true →
      EFI_ERROR fw.GetLoadedImageProtocol = false →
      EFI_ERROR fw.GetLoadedImageFileSystem = false →
      EFI_ERROR fw.ReadSmbiosInfo = false → EFI_ERROR fw.OpenVolume = false →
      EFI_ERROR (resolve fw { v0 with Status := fw.OpenVolume } s1).1.Status = false →
      (ResizeBlob fw (resolve fw { v0 with Status := fw.OpenVolume } s1).2
        (resolve fw { v0 with Status := fw.OpenVolume } s1).1.Blob).1 = EFI_SUCCESS) :
    ∃ r, UefiMain fw v0 s = some r ∧
      ((fw.GetSmbiosTable = false ∨
          (EFI_ERROR fw.GetLoadedImageProtocol = false ∧
           EFI_ERROR fw.GetLoadedImageFileSystem = false ∧
           EFI_ERROR fw.ReadSmbiosInfo = false ∧
           EFI_ERROR fw.OpenVolume = false ∧
           EFI_ERROR fw.RootClose = false)) →
        r.1 = fw.LoadNextStage ∧
        r.2.log.getLast? = some Call.LoadNextStage ∧
        (r.2.log.drop s.log.length).count Call.LoadNextStage = 1) ∧
      (¬ (fw.GetSmbiosTable = false ∨
          (EFI_ERROR fw.GetLoadedImageProtocol = false ∧
           EFI_ERROR fw.GetLoadedImageFileSystem = false ∧
           EFI_ERROR fw.ReadSmbiosInfo = false ∧
           EFI_ERROR fw.OpenVolume = false ∧
           EFI_ERROR fw.RootClose = false)) →
        EFI_ERROR r.1 = true ∧
        r.1 =
          (if EFI_ERROR fw.GetLoadedImageProtocol then fw.GetLoadedImageProtocol
           else if EFI_ERROR fw.GetLoadedImageFileSystem then fw.GetLoadedImageFileSystem
           else if EFI_ERROR fw.ReadSmbiosInfo then fw.ReadSmbiosInfo
           else if EFI_ERROR fw.OpenVolume then fw.OpenVolume
           else fw.RootClose) ∧
        Call.LoadNextStage ∉ r.2.log.drop s.log.length) := by
  have hrt := InstallRtPropertiesTable_log fw s s1 hRt
  by_cases hs : fw.GetSmbiosTable = true
  · rcases LoadAndRegisterDtb_defined fw v0 s1 (hGrow hs) with ⟨r0, hr0⟩
    rcases LoadAndRegisterDtb_log fw v0 s1 r0 hr0 with ⟨l, hl, hn⟩
    have hst := LoadAndRegisterDtb_status fw v0 s1 r0 hr0
    have hch := status_chain_ok fw
    rw [← hst] at hch
    by_cases he : EFI_ERROR r0.1 = true
    · refine ⟨r0, by simp [UefiMain, hRt, hs, hr0, he], ?_, ?_⟩
      · rintro (h | h)
        · rw [hs] at h; exact absurd h (by simp)
        · rw [hch.2 h] at he; exact absurd he (by simp)
      · intro _
        refine ⟨he, hst, ?_⟩
        rw [hl, hrt]
        simp only [List.append_assoc, List.drop_left]
        simp [hn]
    · have he2 : EFI_ERROR r0.1 = false := by simpa using he
      refine ⟨LoadNextStage fw r0.2, by simp [UefiMain, hRt, hs, hr0, he2], ?_, ?_⟩
      · intro _
        refine ⟨rfl, ?_, ?_⟩
        · simp [LoadNextStage, State.note]
        · simp only [LoadNextStage, State.note]
          rw [hl, hrt]
          simp only [List.append_assoc, List.drop_left]
          simp [List.count_eq_zero_of_not_mem hn]
      · intro hc
        exact absurd (Or.inr (hch.1 he2)) hc
  · have hs2 : fw.GetSmbiosTable = false := by simpa using hs
    refine ⟨LoadNextStage fw s1, by simp [UefiMain, hRt, hs2], ?_, ?_⟩
    · intro _
      refine ⟨rfl, ?_, ?_⟩
      · simp [LoadNextStage, State.note]
      · simp only [LoadNextStage, State.note]
        rw [hrt]
        simp only [List.append_assoc, List.drop_left]
        simp
    · intro hc
      exact absurd (Or.inl hs2) hc

/-- C7 amended, run on a platform without any device-tree file (resolution fails, the next
stage is started all the same), on the platform where everything succeeds, and on the
platform where the SMBIOS information cannot be read (that error is returned, no handoff). -/
theorem UefiMain_handoff_witness :
    EFI_ERROR (resolve emptyPlatform { locals0 with Status := emptyPlatform.OpenVolume }
      (afterRt emptyPlatform bootState)).1.Status = true ∧
    (∃ r, UefiMain emptyPlatform locals0 bootState = some r ∧
      r.1 = emptyPlatform.LoadNextStage ∧ r.2.log.getLast? = some Call.LoadNextStage) ∧
    (ResizeBlob (samplePlatform 3)
      (resolve (samplePlatform 3) { locals0 with Status := (samplePlatform 3).OpenVolume }
        (afterRt (samplePlatform 3) bootState)).2
      (resolve (samplePlatform 3) { locals0 with Status := (samplePlatform 3).OpenVolume }
        (afterRt (samplePlatform 3) bootState)).1.Blob).1 = EFI_SUCCESS ∧
    (∃ r, UefiMain (samplePlatform 3) locals0 bootState = some r ∧
      r.1 = (samplePlatform 3).LoadNextStage ∧
      (r.2.log.drop bootState.log.length).count Call.LoadNextStage = 1) ∧
    (∃ r, UefiMain noSmbiosInfoPlatform locals0 bootState = some r ∧
      EFI_ERROR r.1 = true ∧ Call.LoadNextStage ∉ r.2.log.drop bootState.log.length) := by
  rcases UefiMain_handoff emptyPlatform locals0 bootState (afterRt emptyPlatform bootState)
    rfl (fun _ _ _ _ _ h => absurd h (by decide)) with ⟨r, hr, hyes, _⟩
  rcases UefiMain_handoff (samplePlatform 3) locals0 bootState
    (afterRt (samplePlatform 3) bootState) rfl (fun _ _ _ _ _ _ => by decide)
    with ⟨r2, hr2, hyes2, _⟩
  rcases UefiMain_handoff noSmbiosInfoPlatform locals0 bootState
    (afterRt noSmbiosInfoPlatform bootState) rfl (fun _ _ _ h _ _ => absurd h (by decide))
    with ⟨r3, hr3, _, hno3⟩
  have y := hyes (Or.inr ⟨by decide, by decide, by decide, by decide, by decide⟩)
  have y2 := hyes2 (Or.inr ⟨by decide, by decide, by decide, by decide, by decide⟩)
  have n3 := hno3 (by decide)
  exact ⟨by decide, ⟨r, hr, y.1, y.2.1⟩, by decide, ⟨r2, hr2, y2.1, y2.2.2⟩,
    ⟨r3, hr3, n3.1, n3.2.2⟩⟩

/-- C8 on the code: with a blob resolved and `AllocatePool` failing, `ResizeBlob` reports
`EFI_OUT_OF_RESOURCES`, yet `QcomDetectPanel` and `RegisterDtBlob` are still entered.
`RegisterDtBlob` reads through the never-assigned, null `mBlobInfo.Data`: where page 0 is
not mapped the program stops there; where it is mapped the blob is installed under the
device-tree identity and the exit-boot-services callback is registered. Likewise, with the
install refused by the firmware, the device-tree entry is absent and `CreateEvent` is
called all the same. -/
theorem failed_steps_are_not_skipped :
    (ResizeBlob noPoolPlatform (resolve noPoolPlatform locals0 bootState).2 0x1000).1
      = EFI_OUT_OF_RESOURCES ∧
    (LoadAndRegisterDtb noPoolStrictPlatform locals0 bootState).isNone = true ∧
    (LoadAndRegisterDtb noPoolPlatform locals0 bootState).map
      (fun r => (r.2.dir Guid.gFdtTableGuid, r.2.hooked, r.2.log)) =
      some (some 0x1000, true,
        [Call.GetComputerHardwareId CHID.CHID_3, Call.ReadFdt (FdtPath.dtb 3),
         Call.AllocatePool 0x410, Call.QcomDetectPanel 0x1000 CHID.CHID_3,
         Call.CalculateCrc32 0 0,
         Call.InstallConfigurationTable Guid.gFdtTableGuid 0x1000,
         Call.CreateEvent, Call.RootClose]) ∧
    EFI_ERROR (noInstallPlatform.InstallStatus Guid.gFdtTableGuid 0x2000) = true ∧
    (LoadAndRegisterDtb noInstallPlatform locals0 bootState).map
      (fun r => (r.2.dir Guid.gFdtTableGuid, r.2.hooked, r.2.log)) =
      some (none, true,
        [Call.GetComputerHardwareId CHID.CHID_3, Call.ReadFdt (FdtPath.dtb 3),
         Call.AllocatePool 0x410, Call.fdt_open_into 0x1000 0x2000 0x410,
         Call.FreePool 0x1000, Call.QcomDetectPanel 0x2000 CHID.CHID_3,
         Call.CalculateCrc32 0x2000 0x410,
         Call.InstallConfigurationTable Guid.gFdtTableGuid 0x2000,
         Call.CreateEvent, Call.RootClose]) := by
  decide

end DtbLoader
